import Mathlib

/-!
Verification development for the kafka-tui reactive control loop.

The definitions below are a shallow embedding of the Rust sources:

* `src/app/state.rs`   — the `AppState` tree and its sub-states;
* `src/app/update.rs`  — the monolithic reducer `update` and its helpers;
* `src/app/handlers/navigation.rs` — the modular navigation handler;
* `src/kafka/client.rs` (`KafkaClient::delete_records`) and
  `src/kafka/admin_ffi.rs` (`delete_records_inner`) — the two copies of the
  native delete-records bridge, modelled as pure functions over an oracle of
  native-call outcomes, threading an explicit resource-event trace.

Modelling conventions:
* machine integers (`i32`, `i64`) are `Int`; `usize` indices are `Nat`
  (the Rust `saturating_sub` on `usize` is `Nat` subtraction);
* `DateTime<Utc>` is an `Int` count of milliseconds, so the 5-second toast
  TTL (`chrono::Duration::seconds(5)`) is `5000`;
* `Uuid` is a `Nat`;
* the two impure leaves of the reducer, `Utc::now()` and `Uuid::new_v4()`, are
  passed in explicitly through an `Env` record: every `Utc::now()` call made
  while handling one action reads `Env.now`, and the (at most one) fresh
  UUID generated is `Env.fresh_id`;
* `HashMap<String, String>` is a `List (String × String)` — no claim
  inspects header maps;
* `Vec::push`/`Vec::pop` are `++ [x]` / `getLast?`+`dropLast`.
-/

-- ===== Data model (src/app/state.rs) =====

inductive Screen where
  | welcome
  | topics
  | topicDetails (topic_name : String)
  | messages (topic_name : String)
  | consumerGroups
  | consumerGroupDetails (group_id : String)
  | brokers
  | logs
deriving DecidableEq, Repr

inductive Level where
  | info
  | success
  | warning
  | error
deriving DecidableEq, Repr

inductive ConnectionStatus where
  | disconnected
  | connecting
  | connected
  | error (msg : String)
deriving DecidableEq, Repr

inductive SaslMechanism where
  | plain
  | scramSha256
  | scramSha512
deriving DecidableEq, Repr

inductive AuthConfig where
  | none
  | saslPlain (username password : String)
  | saslScram256 (username password : String)
  | saslScram512 (username password : String)
  | ssl (ca_location cert_location key_location key_password : Option String)
  | saslSsl (mechanism : SaslMechanism) (username password : String)
      (ca_location : Option String)
deriving DecidableEq, Repr

structure ConnectionProfile where
  id : Nat
  name : String
  brokers : String
  consumer_group : Option String
  auth : AuthConfig
  created_at : Int
  last_used : Option Int
deriving DecidableEq, Repr

structure TopicInfo where
  name : String
  partition_count : Int
  replication_factor : Int
  message_count : Option Int
  is_internal : Bool
deriving DecidableEq, Repr

structure PartitionInfo where
  id : Int
  leader : Int
  replicas : List Int
  isr : List Int
  low_watermark : Int
  high_watermark : Int
deriving DecidableEq, Repr

structure TopicDetail where
  name : String
  partitions : List PartitionInfo
  config : List (String × String)
  is_internal : Bool
deriving DecidableEq, Repr

inductive TopicSortField where
  | name
  | partitions
  | replication
deriving DecidableEq, Repr

inductive TopicDetailTab where
  | partitions
  | config
deriving DecidableEq, Repr

structure TopicsState where
  topics : List TopicInfo
  selected_index : Nat
  filter : String
  loading : Bool
  sort_by : TopicSortField
  sort_ascending : Bool
  current_detail : Option TopicDetail
  detail_tab : TopicDetailTab
deriving DecidableEq, Repr

inductive OffsetMode where
  | latest
  | earliest
  | specific (o : Int)
  | timestamp (t : Int)
deriving DecidableEq, Repr

structure KafkaMessage where
  partition : Int
  offset : Int
  timestamp : Option Int
  key : Option String
  value : String
  headers : List (String × String)
deriving DecidableEq, Repr

structure MessagesState where
  messages : List KafkaMessage
  selected_index : Nat
  partition_filter : Option Int
  offset_mode : OffsetMode
  loading : Bool
  consumer_running : Bool
  detail_expanded : Bool
  current_topic : Option String
deriving DecidableEq, Repr

structure ConsumerGroupInfo where
  group_id : String
  state : String
  members_count : Nat
  topics : List String
  total_lag : Int
deriving DecidableEq, Repr

structure BrokerInfo where
  id : Int
  host : String
  port : Int
  is_controller : Bool
deriving DecidableEq, Repr

structure TopicPartition where
  topic : String
  partition : Int
deriving DecidableEq, Repr

structure GroupMember where
  member_id : String
  client_id : String
  client_host : String
  assignments : List TopicPartition
deriving DecidableEq, Repr

structure PartitionOffset where
  topic : String
  partition : Int
  current_offset : Int
  log_end_offset : Int
  lag : Int
deriving DecidableEq, Repr

structure ConsumerGroupDetail where
  group_id : String
  state : String
  coordinator : Option BrokerInfo
  members : List GroupMember
  offsets : List PartitionOffset
deriving DecidableEq, Repr

inductive ConsumerGroupDetailTab where
  | members
  | offsets
deriving DecidableEq, Repr

structure ConsumerGroupsState where
  groups : List ConsumerGroupInfo
  selected_index : Nat
  filter : String
  loading : Bool
  current_detail : Option ConsumerGroupDetail
  detail_tab : ConsumerGroupDetailTab
deriving DecidableEq, Repr

structure BrokersState where
  brokers : List BrokerInfo
  selected_index : Nat
  loading : Bool
  cluster_id : Option String
deriving DecidableEq, Repr

structure LogEntry where
  level : Level
  message : String
  timestamp : Int
deriving DecidableEq, Repr

structure LogsState where
  entries : List LogEntry
  selected_index : Nat
  filter_level : Option Level
deriving DecidableEq, Repr

structure ConnectionState where
  status : ConnectionStatus
  active_profile : Option ConnectionProfile
  available_profiles : List ConnectionProfile
  selected_index : Nat
deriving DecidableEq, Repr

inductive SidebarItem where
  | topics
  | consumerGroups
  | brokers
  | logs
deriving DecidableEq, Repr

/-- Embeds `SidebarItem::to_screen` from `state.rs`. -/
def SidebarItem.to_screen : SidebarItem → Screen
  | .topics => .topics
  | .consumerGroups => .consumerGroups
  | .brokers => .brokers
  | .logs => .logs

/-- Embeds `SidebarItem::next` from `state.rs` (four-item cycle). -/
def SidebarItem.next : SidebarItem → SidebarItem
  | .topics => .consumerGroups
  | .consumerGroups => .brokers
  | .brokers => .logs
  | .logs => .topics

/-- Embeds `SidebarItem::prev` from `state.rs` (four-item cycle). -/
def SidebarItem.prev : SidebarItem → SidebarItem
  | .topics => .logs
  | .consumerGroups => .topics
  | .brokers => .consumerGroups
  | .logs => .brokers

inductive AuthType where
  | none
  | saslPlain
  | saslScram256
  | saslScram512
deriving DecidableEq, Repr

inductive ConnectionFormField where
  | name
  | brokers
  | consumerGroup
  | authType
  | username
  | password
deriving DecidableEq, Repr

structure ConnectionFormState where
  name : String
  brokers : String
  consumer_group : String
  auth_type : AuthType
  username : String
  password : String
  focused_field : ConnectionFormField
deriving DecidableEq, Repr

inductive TopicCreateFormField where
  | name
  | partitions
  | replicationFactor
deriving DecidableEq, Repr

structure TopicCreateFormState where
  name : String
  partitions : String
  replication_factor : String
  focused_field : TopicCreateFormField
deriving DecidableEq, Repr

inductive ProduceFormField where
  | key
  | value
deriving DecidableEq, Repr

structure ProduceFormState where
  topic : String
  key : String
  value : String
  focused_field : ProduceFormField
deriving DecidableEq, Repr

structure AddPartitionsFormState where
  topic : String
  current_count : Int
  new_count : String
deriving DecidableEq, Repr

structure AlterConfigFormState where
  topic : String
  configs : List (String × String × Bool)
  selected_index : Nat
  editing : Bool
  edit_value : String
deriving DecidableEq, Repr

/-- Embeds `AlterConfigFormState::modified_configs` from `state.rs`. -/
def AlterConfigFormState.modified_configs (f : AlterConfigFormState) :
    List (String × String) :=
  (f.configs.filter (fun c => c.2.2)).map (fun c => (c.1, c.2.1))

structure PurgeTopicFormState where
  topic : String
  offset : String
  purge_all : Bool
deriving DecidableEq, Repr

inductive ConfirmAction where
  | deleteTopic (name : String)
  | deleteConnection (id : Nat)
  | disconnectCluster
deriving DecidableEq, Repr

inductive InputAction where
  | filterTopics
  | filterConsumerGroups
  | produceMessage (topic : String)
  | createTopic
deriving DecidableEq, Repr

inductive ModalType where
  | confirm (title message : String) (action : ConfirmAction)
  | input (title placeholder value : String) (action : InputAction)
  | connectionForm (f : ConnectionFormState)
  | topicCreateForm (f : TopicCreateFormState)
  | produceForm (f : ProduceFormState)
  | addPartitionsForm (f : AddPartitionsFormState)
  | alterConfigForm (f : AlterConfigFormState)
  | purgeTopicForm (f : PurgeTopicFormState)
deriving DecidableEq, Repr

structure ToastMessage where
  id : Nat
  message : String
  level : Level
  created_at : Int
deriving DecidableEq, Repr

structure UiState where
  show_help : Bool
  active_modal : Option ModalType
  toast_messages : List ToastMessage
  sidebar_focused : Bool
  selected_sidebar_item : SidebarItem
deriving DecidableEq, Repr

structure AppState where
  active_screen : Screen
  screen_history : List Screen
  connection : ConnectionState
  topics_state : TopicsState
  messages_state : MessagesState
  consumer_groups_state : ConsumerGroupsState
  brokers_state : BrokersState
  logs_state : LogsState
  ui_state : UiState
  running : Bool
  last_error : Option String
deriving DecidableEq, Repr

-- ===== Derived accessors (src/app/state.rs impls) =====

/-- Substring search on character lists: does `hay` start with `needle`? -/
def charsHasPref : List Char → List Char → Bool
  | [], _ => true
  | _ :: _, [] => false
  | a :: as, b :: bs => a == b && charsHasPref as bs

/-- Substring search on character lists: does `needle` occur inside `hay`?
Embeds the Rust `str::contains` method for the filter predicates. -/
def charsHasInfix (needle : List Char) : List Char → Bool
  | [] => charsHasPref needle []
  | c :: t => charsHasPref needle (c :: t) || charsHasInfix needle t

/-- Rust `hay.contains(&needle)` on strings. -/
def strContains (hay needle : String) : Bool :=
  charsHasInfix needle.toList hay.toList

/-- Embeds `TopicsState::filtered_topics` from `state.rs`. -/
def TopicsState.filtered_topics (ts : TopicsState) : List TopicInfo :=
  if ts.filter = "" then ts.topics
  else ts.topics.filter (fun t => strContains t.name.toLower ts.filter.toLower)

/-- Embeds `TopicsState::selected_topic` from `state.rs`. -/
def TopicsState.selected_topic (ts : TopicsState) : Option TopicInfo :=
  ts.filtered_topics[ts.selected_index]?

/-- Embeds `ConsumerGroupsState::filtered_groups` from `state.rs`. -/
def ConsumerGroupsState.filtered_groups (cs : ConsumerGroupsState) :
    List ConsumerGroupInfo :=
  if cs.filter = "" then cs.groups
  else cs.groups.filter (fun g => strContains g.group_id.toLower cs.filter.toLower)

/-- Embeds `ConsumerGroupsState::selected_group` from `state.rs`. -/
def ConsumerGroupsState.selected_group (cs : ConsumerGroupsState) :
    Option ConsumerGroupInfo :=
  cs.filtered_groups[cs.selected_index]?

/-- Embeds `LogsState::filtered_entries` from `state.rs`. -/
def LogsState.filtered_entries (ls : LogsState) : List LogEntry :=
  match ls.filter_level with
  | some level => ls.entries.filter (fun e => e.level == level)
  | none => ls.entries

-- ===== Default states (Rust `Default` derives) =====

/-- Embeds `ConnectionState::default()`. -/
def defaultConnectionState : ConnectionState :=
  { status := .disconnected, active_profile := none,
    available_profiles := [], selected_index := 0 }

/-- Embeds `TopicsState::default()` (note `sort_ascending` defaults to `false`). -/
def defaultTopicsState : TopicsState :=
  { topics := [], selected_index := 0, filter := "", loading := false,
    sort_by := .name, sort_ascending := false, current_detail := none,
    detail_tab := .partitions }

/-- Embeds `MessagesState::default()`. -/
def defaultMessagesState : MessagesState :=
  { messages := [], selected_index := 0, partition_filter := none,
    offset_mode := .latest, loading := false, consumer_running := false,
    detail_expanded := false, current_topic := none }

/-- Embeds `ConsumerGroupsState::default()`. -/
def defaultConsumerGroupsState : ConsumerGroupsState :=
  { groups := [], selected_index := 0, filter := "", loading := false,
    current_detail := none, detail_tab := .members }

/-- Embeds `BrokersState::default()`. -/
def defaultBrokersState : BrokersState :=
  { brokers := [], selected_index := 0, loading := false, cluster_id := none }

/-- Embeds `LogsState::default()`. -/
def defaultLogsState : LogsState :=
  { entries := [], selected_index := 0, filter_level := none }

/-- Embeds `UiState::default()`. -/
def defaultUiState : UiState :=
  { show_help := false, active_modal := none, toast_messages := [],
    sidebar_focused := false, selected_sidebar_item := .topics }

/-- Embeds `AppState::default()` — the state the runner starts from. -/
def initialState : AppState :=
  { active_screen := .welcome, screen_history := [],
    connection := defaultConnectionState,
    topics_state := defaultTopicsState,
    messages_state := defaultMessagesState,
    consumer_groups_state := defaultConsumerGroupsState,
    brokers_state := defaultBrokersState,
    logs_state := defaultLogsState,
    ui_state := defaultUiState,
    running := false, last_error := none }

-- ===== Actions and Commands (src/app/actions.rs, as matched by update.rs) =====

inductive AppAction where
  | tick
  | quit
  | resize (w h : Nat)
  | navigate (screen : Screen)
  | goBack
  | focusSidebar
  | focusContent
  | selectSidebarItem (item : SidebarItem)
  | connect (profile : ConnectionProfile)
  | connectionSuccess
  | connectionFailed (e : String)
  | disconnect
  | loadSavedConnections
  | connectionsLoaded (ps : List ConnectionProfile)
  | saveConnection (p : ConnectionProfile)
  | requestDeleteConnection
  | deleteConnection (id : Nat)
  | connectionDeleted (id : Nat)
  | fetchTopics
  | topicsFetched (topics : List TopicInfo)
  | topicsFetchFailed (e : String)
  | selectTopic (i : Nat)
  | filterTopics (f : String)
  | clearTopicFilter
  | sortTopics (field : TopicSortField)
  | createTopic (name : String) (partitions replication_factor : Int)
  | topicCreated (name : String) (partitions replication_factor : Int)
  | topicCreateFailed (e : String)
  | deleteTopic (name : String)
  | topicDeleted (name : String)
  | topicDeleteFailed (e : String)
  | requestViewTopicDetails
  | viewTopicDetails (name : String)
  | topicDetailsFetched (detail : TopicDetail)
  | topicDetailsFetchFailed (e : String)
  | switchTopicDetailTab
  | viewTopicMessages (name : String)
  | addPartitions (topic : String) (new_count : Int)
  | partitionsAdded (topic : String)
  | partitionsAddFailed (e : String)
  | alterTopicConfig (topic : String) (configs : List (String × String))
  | topicConfigAltered (topic : String)
  | topicConfigAlterFailed (e : String)
  | purgeTopic (topic : String) (before_offset : Int)
  | topicPurged (topic : String)
  | topicPurgeFailed (e : String)
  | updateAddPartitionsForm (f : AddPartitionsFormState)
  | updateAlterConfigForm (f : AlterConfigFormState)
  | updatePurgeTopicForm (f : PurgeTopicFormState)
  | fetchMessages (topic : String) (offset_mode : OffsetMode)
      (partition : Option Int)
  | messagesFetched (msgs : List KafkaMessage)
  | messageReceived (msg : KafkaMessage)
  | messagesFetchFailed (e : String)
  | selectMessage (i : Nat)
  | setOffsetMode (m : OffsetMode)
  | setPartitionFilter (p : Option Int)
  | startConsuming (topic : String)
  | stopConsuming
  | produceMessage (topic : String) (key : Option String) (value : String)
      (headers : List (String × String))
  | messageProduced
  | messageProduceFailed (e : String)
  | toggleMessageDetail
  | clearMessages
  | fetchConsumerGroups
  | consumerGroupsFetched (groups : List ConsumerGroupInfo)
  | consumerGroupsFetchFailed (e : String)
  | selectConsumerGroup (i : Nat)
  | filterConsumerGroups (f : String)
  | clearConsumerGroupFilter
  | viewConsumerGroupDetails (id : String)
  | consumerGroupDetailsFetched (detail : ConsumerGroupDetail)
  | consumerGroupDetailsFetchFailed (e : String)
  | switchConsumerGroupDetailTab
  | fetchBrokers
  | brokersFetched (brokers : List BrokerInfo) (cluster_id : Option String)
  | brokersFetchFailed (e : String)
  | showHelp
  | hideHelp
  | showModal (m : ModalType)
  | hideModal
  | modalConfirm
  | modalCancel
  | updateModalInput (v : String)
  | updateConnectionForm (f : ConnectionFormState)
  | updateTopicCreateForm (f : TopicCreateFormState)
  | updateProduceForm (f : ProduceFormState)
  | showToast (message : String) (level : Level)
  | dismissToast (id : Nat)
  | moveUp
  | moveDown
  | moveLeft
  | moveRight
  | pageUp
  | pageDown
  | scrollToTop
  | scrollToBottom
  | select
  | cancel

inductive Command where
  | none
  | batch (cmds : List Command)
  | connectToKafka (profile : ConnectionProfile)
  | disconnectFromKafka
  | fetchTopicList
  | fetchTopicDetails (name : String)
  | fetchBrokerList
  | createKafkaTopic (name : String) (partitions replication_factor : Int)
  | deleteKafkaTopic (name : String)
  | fetchMessages (topic : String) (offset_mode : OffsetMode)
      (partition : Option Int) (limit : Nat)
  | startMessageConsumer (topic : String) (offset_mode : OffsetMode)
      (partition : Option Int)
  | stopMessageConsumer
  | produceKafkaMessage (topic : String) (key : Option String) (value : String)
      (headers : List (String × String))
  | fetchConsumerGroupList
  | fetchConsumerGroupDetails (id : String)
  | loadConnectionProfiles
  | saveConnectionProfile (p : ConnectionProfile)
  | deleteConnectionProfile (id : Nat)
  | addTopicPartitions (topic : String) (new_count : Int)
  | alterKafkaTopicConfig (topic : String) (configs : List (String × String))
  | purgeKafkaTopic (topic : String) (before_offset : Int)

/-- The impure leaves of the reducer, made explicit: `Utc::now()` (milliseconds)
and `Uuid::new_v4()` read these fields. -/
structure Env where
  now : Int
  fresh_id : Nat
deriving DecidableEq, Repr

-- ===== Reducer helpers (src/app/update.rs) =====

/-- Embeds `i64::MAX`, the "purge all" sentinel offset. -/
def i64Max : Int := 2 ^ 63 - 1

/-- Embeds `usize::MAX`, as passed by `ScrollToBottom`. -/
def usizeMax : Nat := 2 ^ 64 - 1

/-- Embeds `toast` from `update.rs`: pushes a toast whose id and timestamp come from
`Uuid::new_v4()` / `Utc::now()` — i.e. from the environment.  Note that this
monolithic version does not touch the log buffer. -/
def toast (env : Env) (s : AppState) (msg : String) (level : Level) : AppState :=
  { s with ui_state := { s.ui_state with
      toast_messages := s.ui_state.toast_messages ++
        [{ id := env.fresh_id, message := msg, level := level,
           created_at := env.now }] } }

/-- Embeds `expire_toasts` from `update.rs`: retain toasts younger than 5 seconds. -/
def expire_toasts (now : Int) (toasts : List ToastMessage) : List ToastMessage :=
  toasts.filter (fun t => now - t.created_at < 5000)

/-- Comparator used by `sort_topics` in `update.rs`, re-expressed as a
boolean `le` for `List.mergeSort` (the Rust `sort_by` is a stable sort by an
`Ordering`-valued comparator; `le a b` here means "the comparator does not
say `Greater`"). -/
def topicLe (sort_by : TopicSortField) (asc : Bool) (a b : TopicInfo) : Bool :=
  let cmp : Ordering :=
    match sort_by with
    | .name => compare a.name b.name
    | .partitions => compare a.partition_count b.partition_count
    | .replication => compare a.replication_factor b.replication_factor
  let cmp := if asc then cmp else cmp.swap
  cmp ≠ .gt

/-- Embeds `sort_topics` from `update.rs`. -/
def sort_topics (s : AppState) : AppState :=
  { s with topics_state := { s.topics_state with
      topics := s.topics_state.topics.mergeSort
        (topicLe s.topics_state.sort_by s.topics_state.sort_ascending) } }

/-- Embeds `nav_up` from `update.rs` (no `Screen::Logs` arm). -/
def nav_up (s : AppState) : AppState :=
  if s.ui_state.sidebar_focused then
    -- `sidebar_prev` from `update.rs`: a three-item cycle; the source match
    -- has no arm for `SidebarItem::Logs`, modelled here as unchanged.
    { s with ui_state := { s.ui_state with
        selected_sidebar_item :=
          (match s.ui_state.selected_sidebar_item with
          | .topics => .brokers
          | .consumerGroups => .topics
          | .brokers => .consumerGroups
          | .logs => .logs) } }
  else
    match s.active_screen with
    | .topics => { s with topics_state := { s.topics_state with
        selected_index := s.topics_state.selected_index - 1 } }
    | .messages _ => { s with messages_state := { s.messages_state with
        selected_index := s.messages_state.selected_index - 1 } }
    | .consumerGroups => { s with consumer_groups_state :=
        { s.consumer_groups_state with
          selected_index := s.consumer_groups_state.selected_index - 1 } }
    | .welcome => { s with connection := { s.connection with
        selected_index := s.connection.selected_index - 1 } }
    | _ => s

/-- Embeds `nav_down` from `update.rs` (no `Screen::Logs` arm). -/
def nav_down (s : AppState) : AppState :=
  if s.ui_state.sidebar_focused then
    -- `sidebar_next` from `update.rs`: a three-item cycle; the source match
    -- has no arm for `SidebarItem::Logs`, modelled here as unchanged.
    { s with ui_state := { s.ui_state with
        selected_sidebar_item :=
          (match s.ui_state.selected_sidebar_item with
          | .topics => .consumerGroups
          | .consumerGroups => .brokers
          | .brokers => .topics
          | .logs => .logs) } }
  else
    match s.active_screen with
    | .topics =>
        if s.topics_state.selected_index + 1 < s.topics_state.filtered_topics.length
        then { s with topics_state := { s.topics_state with
            selected_index := s.topics_state.selected_index + 1 } }
        else s
    | .messages _ =>
        if s.messages_state.selected_index + 1 < s.messages_state.messages.length
        then { s with messages_state := { s.messages_state with
            selected_index := s.messages_state.selected_index + 1 } }
        else s
    | .consumerGroups =>
        if s.consumer_groups_state.selected_index + 1 <
            s.consumer_groups_state.filtered_groups.length
        then { s with consumer_groups_state := { s.consumer_groups_state with
            selected_index := s.consumer_groups_state.selected_index + 1 } }
        else s
    | .welcome =>
        if s.connection.selected_index + 1 < s.connection.available_profiles.length
        then { s with connection := { s.connection with
            selected_index := s.connection.selected_index + 1 } }
        else s
    | _ => s

/-- Embeds `nav_to` from `update.rs` (no `Screen::Logs` or `Screen::Welcome` arm). -/
def nav_to (s : AppState) (target : Nat) : AppState :=
  match s.active_screen with
  | .topics => { s with topics_state := { s.topics_state with
      selected_index := min target (s.topics_state.filtered_topics.length - 1) } }
  | .messages _ => { s with messages_state := { s.messages_state with
      selected_index := min target (s.messages_state.messages.length - 1) } }
  | .consumerGroups => { s with consumer_groups_state :=
      { s.consumer_groups_state with
        selected_index :=
          min target (s.consumer_groups_state.filtered_groups.length - 1) } }
  | _ => s

/-- Iterate a state transformer, for the `for _ in 0..10` loops. -/
def applyN (f : AppState → AppState) : Nat → AppState → AppState
  | 0, s => s
  | n + 1, s => applyN f n (f s)

/-- The `Action::Navigate` arm of `update.rs`, also the target of the
recursive reducer calls `update(state, Action::Navigate(..))`. -/
def navigateOn (s : AppState) (screen : Screen) : AppState × Command :=
  if s.active_screen = screen then (s, .none)
  else
    ({ s with
        screen_history := s.screen_history ++ [s.active_screen],
        active_screen := screen },
      match screen with
      | .topics => .fetchTopicList
      | .consumerGroups => .fetchConsumerGroupList
      | .brokers => .fetchBrokerList
      | .messages topic_name =>
          .fetchMessages topic_name s.messages_state.offset_mode
            s.messages_state.partition_filter 100
      | _ => .none)

/-- The `Action::GoBack` arm of `update.rs`. -/
def goBackOn (s : AppState) : AppState × Command :=
  match s.ui_state.active_modal with
  | some _ =>
      ({ s with ui_state := { s.ui_state with active_modal := none } }, .none)
  | none =>
      if s.ui_state.show_help then
        ({ s with ui_state := { s.ui_state with show_help := false } }, .none)
      else
        match s.screen_history.getLast? with
        | some prev =>
            ({ s with
                active_screen := prev,
                screen_history := s.screen_history.dropLast }, .none)
        | none => (s, .none)

/-- The `Action::Connect` arm of `update.rs`. -/
def connectOn (s : AppState) (profile : ConnectionProfile) : AppState × Command :=
  ({ s with connection := { s.connection with
      status := .connecting, active_profile := some profile } },
    .connectToKafka profile)

/-- The `Action::ShowModal` arm of `update.rs`. -/
def showModalOn (s : AppState) (m : ModalType) : AppState × Command :=
  ({ s with ui_state := { s.ui_state with active_modal := some m } }, .none)

/-- The `Action::ViewTopicDetails` arm of `update.rs`. -/
def viewTopicDetailsOn (s : AppState) (name : String) : AppState × Command :=
  ({ s with
      screen_history := s.screen_history ++ [s.active_screen],
      topics_state := { s.topics_state with
        current_detail := none, detail_tab := .partitions },
      active_screen := .topicDetails name },
    .fetchTopicDetails name)

/-- The `Action::ViewTopicMessages` arm of `update.rs`. -/
def viewTopicMessagesOn (s : AppState) (name : String) : AppState × Command :=
  ({ s with
      screen_history := s.screen_history ++ [s.active_screen],
      messages_state := { s.messages_state with
        current_topic := some name, messages := [], selected_index := 0 },
      active_screen := .messages name },
    .fetchMessages name s.messages_state.offset_mode
      s.messages_state.partition_filter 100)

/-- The `Action::ViewConsumerGroupDetails` arm of `update.rs`. -/
def viewConsumerGroupDetailsOn (s : AppState) (id : String) : AppState × Command :=
  ({ s with
      screen_history := s.screen_history ++ [s.active_screen],
      consumer_groups_state := { s.consumer_groups_state with
        current_detail := none, detail_tab := .members },
      active_screen := .consumerGroupDetails id },
    .fetchConsumerGroupDetails id)

/-- The `Action::ToggleMessageDetail` arm of `update.rs`. -/
def toggleMessageDetailOn (s : AppState) : AppState × Command :=
  ({ s with messages_state := { s.messages_state with
      detail_expanded := !s.messages_state.detail_expanded } }, .none)

/-- Embeds `String::parse::<i32>().ok()`. -/
def parseI32 (str : String) : Option Int :=
  match str.toInt? with
  | some v => if -(2 ^ 31) ≤ v ∧ v ≤ 2 ^ 31 - 1 then some v else none
  | none => none

/-- Embeds `String::parse::<i64>().ok()`. -/
def parseI64 (str : String) : Option Int :=
  match str.toInt? with
  | some v => if -(2 ^ 63) ≤ v ∧ v ≤ i64Max then some v else none
  | none => none

/-- Embeds `handle_modal_confirm` from `update.rs`.  The `ConnectionForm` arm of the source
builds a profile literal without a `consumer_group` field; it is modelled
as `none` (the serde default). -/
def handle_modal_confirm (s : AppState) (env : Env) : AppState × Command :=
  match s.ui_state.active_modal with
  | none => (s, .none)
  | some modal =>
    let s := { s with ui_state := { s.ui_state with active_modal := none } }
    match modal with
    | .confirm _ _ action =>
        (s, match action with
          | .deleteTopic n => .deleteKafkaTopic n
          | .deleteConnection id => .deleteConnectionProfile id
          | .disconnectCluster => .disconnectFromKafka)
    | .input _ _ value action =>
        match action with
        | .filterTopics =>
            ({ s with topics_state := { s.topics_state with
                filter := value, selected_index := 0 } }, .none)
        | .filterConsumerGroups =>
            ({ s with consumer_groups_state := { s.consumer_groups_state with
                filter := value, selected_index := 0 } }, .none)
        | .produceMessage topic =>
            (s, .produceKafkaMessage topic none value [])
        | .createTopic => (s, .createKafkaTopic value 1 1)
    | .connectionForm f =>
        let auth : AuthConfig :=
          match f.auth_type with
          | .none => .none
          | .saslPlain => .saslPlain f.username f.password
          | .saslScram256 => .saslScram256 f.username f.password
          | .saslScram512 => .saslScram512 f.username f.password
        let profile : ConnectionProfile :=
          { id := env.fresh_id, name := f.name, brokers := f.brokers,
            consumer_group := none, auth := auth, created_at := env.now,
            last_used := none }
        ({ s with connection := { s.connection with
            status := .connecting, active_profile := some profile } },
          .connectToKafka profile)
    | .topicCreateForm f =>
        (s, .createKafkaTopic f.name ((parseI32 f.partitions).getD 1)
          ((parseI32 f.replication_factor).getD 1))
    | .produceForm f =>
        (s, .produceKafkaMessage f.topic
          (if f.key = "" then none else some f.key) f.value [])
    | .addPartitionsForm f =>
        let new_count := (parseI32 f.new_count).getD f.current_count
        if new_count > f.current_count then
          (s, .addTopicPartitions f.topic new_count)
        else (s, .none)
    | .alterConfigForm f =>
        let configs := f.modified_configs
        if configs = [] then (s, .none)
        else (s, .alterKafkaTopicConfig f.topic configs)
    | .purgeTopicForm f =>
        let offset := if f.purge_all then i64Max else (parseI64 f.offset).getD 0
        (s, .purgeKafkaTopic f.topic offset)

/-- Embeds `handle_select` from `update.rs`; the recursive `update(state, ..)` calls
in the source are inlined as the helper for the respective action. -/
def handle_select (s : AppState) : AppState × Command :=
  if s.ui_state.sidebar_focused then
    navigateOn
      { s with ui_state := { s.ui_state with sidebar_focused := false } }
      s.ui_state.selected_sidebar_item.to_screen
  else
    match s.active_screen with
    | .topics =>
        match s.topics_state.selected_topic with
        | some t => viewTopicMessagesOn s t.name
        | none => (s, .none)
    | .messages _ => toggleMessageDetailOn s
    | .consumerGroups =>
        match s.consumer_groups_state.selected_group with
        | some g => viewConsumerGroupDetailsOn s g.group_id
        | none => (s, .none)
    | .welcome =>
        match s.connection.available_profiles[s.connection.selected_index]? with
        | some p => connectOn s p
        | none => (s, .none)
    | _ => (s, .none)

-- ===== The reducer (src/app/update.rs, `update`) =====

/-- The monolithic reducer `update` from `update.rs`.  Recursive calls
`update(state, Action::X(..))` in the source are expressed through the
per-arm helper for `X`. -/
def update (s : AppState) (a : AppAction) (env : Env) : AppState × Command :=
  match a with
  | .tick =>
      ({ s with ui_state := { s.ui_state with
          toast_messages := expire_toasts env.now s.ui_state.toast_messages } },
        .none)
  | .quit => ({ s with running := false }, .none)
  | .resize _ _ => (s, .none)
  | .navigate screen => navigateOn s screen
  | .goBack => goBackOn s
  | .focusSidebar =>
      ({ s with ui_state := { s.ui_state with sidebar_focused := true } }, .none)
  | .focusContent =>
      ({ s with ui_state := { s.ui_state with sidebar_focused := false } }, .none)
  | .selectSidebarItem item =>
      navigateOn
        { s with ui_state := { s.ui_state with selected_sidebar_item := item } }
        item.to_screen
  | .connect profile => connectOn s profile
  | .connectionSuccess =>
      let s := { s with
        connection := { s.connection with status := .connected },
        active_screen := .topics }
      let s := toast env s "Connected" .success
      (s, .batch ([.fetchTopicList, .fetchConsumerGroupList] ++
        match s.connection.active_profile with
        | some p => [.saveConnectionProfile p]
        | none => []))
  | .connectionFailed e =>
      let s := { s with connection := { s.connection with
        status := .error e, active_profile := none } }
      (toast env s ("Connection failed: " ++ e) .error, .none)
  | .disconnect =>
      ({ s with
          connection := defaultConnectionState,
          topics_state := defaultTopicsState,
          messages_state := defaultMessagesState,
          consumer_groups_state := defaultConsumerGroupsState,
          active_screen := .welcome,
          screen_history := [] },
        .disconnectFromKafka)
  | .loadSavedConnections => (s, .loadConnectionProfiles)
  | .connectionsLoaded ps =>
      ({ s with connection := { s.connection with available_profiles := ps } },
        .none)
  | .saveConnection p => (s, .saveConnectionProfile p)
  | .requestDeleteConnection =>
      match s.connection.available_profiles[s.connection.selected_index]? with
      | some profile =>
          showModalOn s (.confirm "Delete Connection"
            ("Delete \x27" ++ profile.name ++ "\x27?")
            (.deleteConnection profile.id))
      | none => (s, .none)
  | .deleteConnection id => (s, .deleteConnectionProfile id)
  | .connectionDeleted id =>
      let profiles := s.connection.available_profiles.filter (fun p => p.id ≠ id)
      let s := { s with connection := { s.connection with
        available_profiles := profiles,
        selected_index := min s.connection.selected_index (profiles.length - 1) } }
      (toast env s "Connection deleted" .success, .none)
  | .fetchTopics =>
      ({ s with topics_state := { s.topics_state with loading := true } },
        .fetchTopicList)
  | .topicsFetched topics =>
      ({ s with topics_state := { s.topics_state with
          topics := topics, loading := false, selected_index := 0 } }, .none)
  | .topicsFetchFailed e =>
      let s := { s with topics_state := { s.topics_state with loading := false } }
      (toast env s ("Failed to fetch topics: " ++ e) .error, .none)
  | .selectTopic i =>
      if i < s.topics_state.filtered_topics.length then
        ({ s with topics_state := { s.topics_state with selected_index := i } },
          .none)
      else (s, .none)
  | .filterTopics f =>
      ({ s with topics_state := { s.topics_state with
          filter := f, selected_index := 0 } }, .none)
  | .clearTopicFilter =>
      ({ s with topics_state := { s.topics_state with
          filter := "", selected_index := 0 } }, .none)
  | .sortTopics field =>
      let s :=
        if s.topics_state.sort_by = field then
          { s with topics_state := { s.topics_state with
            sort_ascending := !s.topics_state.sort_ascending } }
        else
          { s with topics_state := { s.topics_state with
            sort_by := field, sort_ascending := true } }
      (sort_topics s, .none)
  | .createTopic name partitions replication_factor =>
      (s, .createKafkaTopic name partitions replication_factor)
  | .topicCreated name partitions replication_factor =>
      let s := { s with
        ui_state := { s.ui_state with active_modal := none },
        topics_state := { s.topics_state with
          topics := s.topics_state.topics ++
            [{ name := name, partition_count := partitions,
               replication_factor := replication_factor,
               message_count := some 0, is_internal := false }] } }
      (toast env s ("Topic \x27" ++ name ++ "\x27 created") .success, .none)
  | .topicCreateFailed e =>
      (toast env s ("Failed to create topic: " ++ e) .error, .none)
  | .deleteTopic name => (s, .deleteKafkaTopic name)
  | .topicDeleted name =>
      let s := { s with ui_state := { s.ui_state with active_modal := none } }
      (toast env s ("Topic \x27" ++ name ++ "\x27 deleted") .success,
        .fetchTopicList)
  | .topicDeleteFailed e =>
      (toast env s ("Delete failed: " ++ e) .error, .none)
  | .requestViewTopicDetails =>
      match s.topics_state.selected_topic with
      | some t => viewTopicDetailsOn s t.name
      | none => (s, .none)
  | .viewTopicDetails name => viewTopicDetailsOn s name
  | .topicDetailsFetched detail =>
      ({ s with topics_state := { s.topics_state with
          current_detail := some detail } }, .none)
  | .topicDetailsFetchFailed e => (toast env s e .error, .none)
  | .switchTopicDetailTab =>
      ({ s with topics_state := { s.topics_state with
          detail_tab := (match s.topics_state.detail_tab with
            | .partitions => .config
            | .config => .partitions) } }, .none)
  | .viewTopicMessages name => viewTopicMessagesOn s name
  | .addPartitions topic new_count => (s, .addTopicPartitions topic new_count)
  | .partitionsAdded topic =>
      let s := { s with ui_state := { s.ui_state with active_modal := none } }
      (toast env s ("Partitions added to \x27" ++ topic ++ "\x27") .success,
        .fetchTopicDetails topic)
  | .partitionsAddFailed e =>
      (toast env s ("Add partitions failed: " ++ e) .error, .none)
  | .alterTopicConfig topic configs =>
      (s, .alterKafkaTopicConfig topic configs)
  | .topicConfigAltered topic =>
      let s := { s with ui_state := { s.ui_state with active_modal := none } }
      (toast env s ("Config updated for \x27" ++ topic ++ "\x27") .success,
        .fetchTopicDetails topic)
  | .topicConfigAlterFailed e =>
      (toast env s ("Alter config failed: " ++ e) .error, .none)
  | .purgeTopic topic before_offset =>
      (s, .purgeKafkaTopic topic before_offset)
  | .topicPurged topic =>
      let s := { s with ui_state := { s.ui_state with active_modal := none } }
      (toast env s ("Messages purged from \x27" ++ topic ++ "\x27") .success,
        .fetchTopicDetails topic)
  | .topicPurgeFailed e =>
      (toast env s ("Purge failed: " ++ e) .error, .none)
  | .updateAddPartitionsForm f =>
      (match s.ui_state.active_modal with
        | some (.addPartitionsForm _) =>
            { s with ui_state := { s.ui_state with
              active_modal := some (.addPartitionsForm f) } }
        | _ => s, .none)
  | .updateAlterConfigForm f =>
      (match s.ui_state.active_modal with
        | some (.alterConfigForm _) =>
            { s with ui_state := { s.ui_state with
              active_modal := some (.alterConfigForm f) } }
        | _ => s, .none)
  | .updatePurgeTopicForm f =>
      (match s.ui_state.active_modal with
        | some (.purgeTopicForm _) =>
            { s with ui_state := { s.ui_state with
              active_modal := some (.purgeTopicForm f) } }
        | _ => s, .none)
  | .fetchMessages topic offset_mode partition =>
      ({ s with messages_state := { s.messages_state with
          loading := true, offset_mode := offset_mode,
          partition_filter := partition } },
        .fetchMessages topic offset_mode partition 100)
  | .messagesFetched msgs =>
      ({ s with messages_state := { s.messages_state with
          messages := msgs, loading := false, selected_index := 0 } }, .none)
  | .messageReceived msg =>
      ({ s with messages_state := { s.messages_state with
          messages := s.messages_state.messages ++ [msg] } }, .none)
  | .messagesFetchFailed e =>
      let s := { s with messages_state := { s.messages_state with
        loading := false } }
      (toast env s ("Failed to fetch messages: " ++ e) .error, .none)
  | .selectMessage i =>
      if i < s.messages_state.messages.length then
        ({ s with messages_state := { s.messages_state with
            selected_index := i } }, .none)
      else (s, .none)
  | .setOffsetMode m =>
      ({ s with messages_state := { s.messages_state with offset_mode := m } },
        .none)
  | .setPartitionFilter p =>
      ({ s with messages_state := { s.messages_state with
          partition_filter := p } }, .none)
  | .startConsuming topic =>
      ({ s with messages_state := { s.messages_state with
          consumer_running := true } },
        .startMessageConsumer topic s.messages_state.offset_mode
          s.messages_state.partition_filter)
  | .stopConsuming =>
      ({ s with messages_state := { s.messages_state with
          consumer_running := false } }, .stopMessageConsumer)
  | .produceMessage topic key value headers =>
      (s, .produceKafkaMessage topic key value headers)
  | .messageProduced =>
      let s := { s with ui_state := { s.ui_state with active_modal := none } }
      let s := toast env s "Message produced" .success
      (s, match s.active_screen with
        | .messages topic_name => .fetchMessages topic_name .latest none 100
        | _ => .none)
  | .messageProduceFailed e =>
      (toast env s ("Produce failed: " ++ e) .error, .none)
  | .toggleMessageDetail => toggleMessageDetailOn s
  | .clearMessages =>
      ({ s with messages_state := { s.messages_state with
          messages := [], selected_index := 0 } }, .none)
  | .fetchConsumerGroups =>
      ({ s with consumer_groups_state := { s.consumer_groups_state with
          loading := true } }, .fetchConsumerGroupList)
  | .consumerGroupsFetched groups =>
      ({ s with consumer_groups_state := { s.consumer_groups_state with
          groups := groups, loading := false, selected_index := 0 } }, .none)
  | .consumerGroupsFetchFailed e =>
      let s := { s with consumer_groups_state := { s.consumer_groups_state with
        loading := false } }
      (toast env s ("Failed to fetch groups: " ++ e) .error, .none)
  | .selectConsumerGroup i =>
      if i < s.consumer_groups_state.filtered_groups.length then
        ({ s with consumer_groups_state := { s.consumer_groups_state with
            selected_index := i } }, .none)
      else (s, .none)
  | .filterConsumerGroups f =>
      ({ s with consumer_groups_state := { s.consumer_groups_state with
          filter := f, selected_index := 0 } }, .none)
  | .clearConsumerGroupFilter =>
      ({ s with consumer_groups_state := { s.consumer_groups_state with
          filter := "", selected_index := 0 } }, .none)
  | .viewConsumerGroupDetails id => viewConsumerGroupDetailsOn s id
  | .consumerGroupDetailsFetched detail =>
      ({ s with consumer_groups_state := { s.consumer_groups_state with
          current_detail := some detail } }, .none)
  | .consumerGroupDetailsFetchFailed e => (toast env s e .error, .none)
  | .switchConsumerGroupDetailTab =>
      ({ s with consumer_groups_state := { s.consumer_groups_state with
          detail_tab := (match s.consumer_groups_state.detail_tab with
            | .members => .offsets
            | .offsets => .members) } }, .none)
  | .fetchBrokers =>
      ({ s with brokers_state := { s.brokers_state with loading := true } },
        .fetchBrokerList)
  | .brokersFetched brokers cluster_id =>
      ({ s with brokers_state := { s.brokers_state with
          brokers := brokers, cluster_id := cluster_id, loading := false } },
        .none)
  | .brokersFetchFailed e =>
      let s := { s with brokers_state := { s.brokers_state with
        loading := false } }
      (toast env s ("Failed to fetch brokers: " ++ e) .error, .none)
  | .showHelp =>
      ({ s with ui_state := { s.ui_state with show_help := true } }, .none)
  | .hideHelp =>
      ({ s with ui_state := { s.ui_state with show_help := false } }, .none)
  | .showModal m => showModalOn s m
  | .hideModal =>
      ({ s with ui_state := { s.ui_state with active_modal := none } }, .none)
  | .modalConfirm => handle_modal_confirm s env
  | .modalCancel =>
      ({ s with ui_state := { s.ui_state with active_modal := none } }, .none)
  | .updateModalInput v =>
      (match s.ui_state.active_modal with
        | some (.input title placeholder _ action) =>
            { s with ui_state := { s.ui_state with
              active_modal := some (.input title placeholder v action) } }
        | _ => s, .none)
  | .updateConnectionForm f =>
      (match s.ui_state.active_modal with
        | some (.connectionForm _) =>
            { s with ui_state := { s.ui_state with
              active_modal := some (.connectionForm f) } }
        | _ => s, .none)
  | .updateTopicCreateForm f =>
      (match s.ui_state.active_modal with
        | some (.topicCreateForm _) =>
            { s with ui_state := { s.ui_state with
              active_modal := some (.topicCreateForm f) } }
        | _ => s, .none)
  | .updateProduceForm f =>
      (match s.ui_state.active_modal with
        | some (.produceForm _) =>
            { s with ui_state := { s.ui_state with
              active_modal := some (.produceForm f) } }
        | _ => s, .none)
  | .showToast message level => (toast env s message level, .none)
  | .dismissToast id =>
      ({ s with ui_state := { s.ui_state with
          toast_messages :=
            s.ui_state.toast_messages.filter (fun t => t.id ≠ id) } }, .none)
  | .moveUp => (nav_up s, .none)
  | .moveDown => (nav_down s, .none)
  | .moveLeft =>
      (if s.ui_state.sidebar_focused then
        { s with ui_state := { s.ui_state with
          selected_sidebar_item :=
            (match s.ui_state.selected_sidebar_item with
            | .topics => .brokers
            | .consumerGroups => .topics
            | .brokers => .consumerGroups
            | .logs => .logs) } }
      else s, .none)
  | .moveRight =>
      (if s.ui_state.sidebar_focused then
        { s with ui_state := { s.ui_state with
          selected_sidebar_item :=
            (match s.ui_state.selected_sidebar_item with
            | .topics => .consumerGroups
            | .consumerGroups => .brokers
            | .brokers => .topics
            | .logs => .logs) } }
      else s, .none)
  | .pageUp => (applyN nav_up 10 s, .none)
  | .pageDown => (applyN nav_down 10 s, .none)
  | .scrollToTop => (nav_to s 0, .none)
  | .scrollToBottom => (nav_to s usizeMax, .none)
  | .select => handle_select s
  | .cancel => goBackOn s

-- ===== Modular navigation handler (src/app/handlers/navigation.rs) =====

/-- Embeds `Navigable::nav_up` specialised to `TopicsState` (state.rs). -/
def TopicsState.nav_up (ts : TopicsState) : TopicsState :=
  { ts with selected_index := ts.selected_index - 1 }

/-- Embeds `Navigable::nav_down` specialised to `TopicsState` (state.rs). -/
def TopicsState.nav_down (ts : TopicsState) : TopicsState :=
  if ts.selected_index + 1 < ts.filtered_topics.length then
    { ts with selected_index := ts.selected_index + 1 }
  else ts

/-- Embeds `Navigable::nav_to` specialised to `TopicsState` (state.rs). -/
def TopicsState.nav_to (ts : TopicsState) (target : Nat) : TopicsState :=
  { ts with selected_index := min target (ts.filtered_topics.length - 1) }

/-- Embeds `Navigable::nav_up` specialised to `MessagesState` (state.rs). -/
def MessagesState.nav_up (ms : MessagesState) : MessagesState :=
  { ms with selected_index := ms.selected_index - 1 }

/-- Embeds `Navigable::nav_down` specialised to `MessagesState` (state.rs). -/
def MessagesState.nav_down (ms : MessagesState) : MessagesState :=
  if ms.selected_index + 1 < ms.messages.length then
    { ms with selected_index := ms.selected_index + 1 }
  else ms

/-- Embeds `Navigable::nav_to` specialised to `MessagesState` (state.rs). -/
def MessagesState.nav_to (ms : MessagesState) (target : Nat) : MessagesState :=
  { ms with selected_index := min target (ms.messages.length - 1) }

/-- Embeds `Navigable::nav_up` specialised to `ConsumerGroupsState` (state.rs). -/
def ConsumerGroupsState.nav_up (cs : ConsumerGroupsState) : ConsumerGroupsState :=
  { cs with selected_index := cs.selected_index - 1 }

/-- Embeds `Navigable::nav_down` specialised to `ConsumerGroupsState` (state.rs). -/
def ConsumerGroupsState.nav_down (cs : ConsumerGroupsState) : ConsumerGroupsState :=
  if cs.selected_index + 1 < cs.filtered_groups.length then
    { cs with selected_index := cs.selected_index + 1 }
  else cs

/-- Embeds `Navigable::nav_to` specialised to `ConsumerGroupsState` (state.rs). -/
def ConsumerGroupsState.nav_to (cs : ConsumerGroupsState) (target : Nat) :
    ConsumerGroupsState :=
  { cs with selected_index := min target (cs.filtered_groups.length - 1) }

/-- Embeds `Navigable::nav_up` specialised to `ConnectionState` (state.rs). -/
def ConnectionState.nav_up (c : ConnectionState) : ConnectionState :=
  { c with selected_index := c.selected_index - 1 }

/-- Embeds `Navigable::nav_down` specialised to `ConnectionState` (state.rs). -/
def ConnectionState.nav_down (c : ConnectionState) : ConnectionState :=
  if c.selected_index + 1 < c.available_profiles.length then
    { c with selected_index := c.selected_index + 1 }
  else c

/-- Embeds `Navigable::nav_up` specialised to `LogsState` (state.rs). -/
def LogsState.nav_up (ls : LogsState) : LogsState :=
  { ls with selected_index := ls.selected_index - 1 }

/-- Embeds `Navigable::nav_down` specialised to `LogsState` (state.rs). -/
def LogsState.nav_down (ls : LogsState) : LogsState :=
  if ls.selected_index + 1 < ls.filtered_entries.length then
    { ls with selected_index := ls.selected_index + 1 }
  else ls

/-- Embeds `Navigable::nav_to` specialised to `LogsState` (state.rs). -/
def LogsState.nav_to (ls : LogsState) (target : Nat) : LogsState :=
  { ls with selected_index := min target (ls.filtered_entries.length - 1) }

/-- Embeds `nav_up` from `handlers/navigation.rs` (handles `Screen::Logs`;
`sidebar_prev` there is `SidebarItem::prev`, the four-item cycle). -/
def handlers_nav_up (s : AppState) : AppState :=
  if s.ui_state.sidebar_focused then
    { s with ui_state := { s.ui_state with
        selected_sidebar_item := s.ui_state.selected_sidebar_item.prev } }
  else
    match s.active_screen with
    | .topics => { s with topics_state := s.topics_state.nav_up }
    | .messages _ => { s with messages_state := s.messages_state.nav_up }
    | .consumerGroups =>
        { s with consumer_groups_state := s.consumer_groups_state.nav_up }
    | .welcome => { s with connection := s.connection.nav_up }
    | .logs => { s with logs_state := s.logs_state.nav_up }
    | _ => s

/-- Embeds `nav_down` from `handlers/navigation.rs` (handles `Screen::Logs`). -/
def handlers_nav_down (s : AppState) : AppState :=
  if s.ui_state.sidebar_focused then
    { s with ui_state := { s.ui_state with
        selected_sidebar_item := s.ui_state.selected_sidebar_item.next } }
  else
    match s.active_screen with
    | .topics => { s with topics_state := s.topics_state.nav_down }
    | .messages _ => { s with messages_state := s.messages_state.nav_down }
    | .consumerGroups =>
        { s with consumer_groups_state := s.consumer_groups_state.nav_down }
    | .welcome => { s with connection := s.connection.nav_down }
    | .logs => { s with logs_state := s.logs_state.nav_down }
    | _ => s

/-- Embeds `nav_to` from `handlers/navigation.rs` (handles `Screen::Logs`). -/
def handlers_nav_to (s : AppState) (target : Nat) : AppState :=
  match s.active_screen with
  | .topics => { s with topics_state := s.topics_state.nav_to target }
  | .messages _ => { s with messages_state := s.messages_state.nav_to target }
  | .consumerGroups =>
      { s with consumer_groups_state := s.consumer_groups_state.nav_to target }
  | .logs => { s with logs_state := s.logs_state.nav_to target }
  | _ => s

/-- The `Action::Navigate` arm of `handlers/navigation.rs::handle`. -/
def handlers_navigateOn (s : AppState) (screen : Screen) : AppState × Command :=
  if s.active_screen = screen then (s, .none)
  else
    ({ s with
        screen_history := s.screen_history ++ [s.active_screen],
        active_screen := screen },
      match screen with
      | .topics => .fetchTopicList
      | .consumerGroups => .fetchConsumerGroupList
      | .brokers => .fetchBrokerList
      | .messages topic_name =>
          .fetchMessages topic_name s.messages_state.offset_mode
            s.messages_state.partition_filter 100
      | _ => .none)

/-- The `Action::GoBack` arm of `handlers/navigation.rs::handle`. -/
def handlers_goBackOn (s : AppState) : AppState × Command :=
  match s.ui_state.active_modal with
  | some _ =>
      ({ s with ui_state := { s.ui_state with active_modal := none } }, .none)
  | none =>
      if s.ui_state.show_help then
        ({ s with ui_state := { s.ui_state with show_help := false } }, .none)
      else
        match s.screen_history.getLast? with
        | some prev =>
            ({ s with
                active_screen := prev,
                screen_history := s.screen_history.dropLast }, .none)
        | none => (s, .none)

/-- Embeds `handle_select` from `handlers/navigation.rs` (the screen transitions are
written out inline in that source, unlike the monolithic reducer which
recurses through other actions). -/
def handlers_handle_select (s : AppState) : AppState × Command :=
  if s.ui_state.sidebar_focused then
    handlers_navigateOn
      { s with ui_state := { s.ui_state with sidebar_focused := false } }
      s.ui_state.selected_sidebar_item.to_screen
  else
    match s.active_screen with
    | .topics =>
        match s.topics_state.selected_topic with
        | some t =>
            ({ s with
                screen_history := s.screen_history ++ [s.active_screen],
                messages_state := { s.messages_state with
                  current_topic := some t.name, messages := [],
                  selected_index := 0 },
                active_screen := .messages t.name },
              .fetchMessages t.name s.messages_state.offset_mode
                s.messages_state.partition_filter 100)
        | none => (s, .none)
    | .messages _ =>
        ({ s with messages_state := { s.messages_state with
            detail_expanded := !s.messages_state.detail_expanded } }, .none)
    | .consumerGroups =>
        match s.consumer_groups_state.selected_group with
        | some g =>
            ({ s with
                screen_history := s.screen_history ++ [s.active_screen],
                consumer_groups_state := { s.consumer_groups_state with
                  current_detail := none, detail_tab := .members },
                active_screen := .consumerGroupDetails g.group_id },
              .fetchConsumerGroupDetails g.group_id)
        | none => (s, .none)
    | .welcome =>
        match s.connection.available_profiles[s.connection.selected_index]? with
        | some p =>
            ({ s with connection := { s.connection with
                status := .connecting, active_profile := some p } },
              .connectToKafka p)
        | none => (s, .none)
    | _ => (s, .none)

/-- Embeds `handle` from `handlers/navigation.rs`: `none` means "action not handled
by this module". -/
def handlers_handle (s : AppState) (a : AppAction) : Option (AppState × Command) :=
  match a with
  | .navigate screen => some (handlers_navigateOn s screen)
  | .goBack => some (handlers_goBackOn s)
  | .focusSidebar =>
      some ({ s with ui_state := { s.ui_state with sidebar_focused := true } },
        .none)
  | .focusContent =>
      some ({ s with ui_state := { s.ui_state with sidebar_focused := false } },
        .none)
  | .selectSidebarItem item =>
      some (handlers_navigateOn
        { s with ui_state := { s.ui_state with selected_sidebar_item := item } }
        item.to_screen)
  | .moveUp => some (handlers_nav_up s, .none)
  | .moveDown => some (handlers_nav_down s, .none)
  | .moveLeft =>
      some (if s.ui_state.sidebar_focused then
        { s with ui_state := { s.ui_state with
          selected_sidebar_item := s.ui_state.selected_sidebar_item.prev } }
      else s, .none)
  | .moveRight =>
      some (if s.ui_state.sidebar_focused then
        { s with ui_state := { s.ui_state with
          selected_sidebar_item := s.ui_state.selected_sidebar_item.next } }
      else s, .none)
  | .pageUp => some (applyN handlers_nav_up 10 s, .none)
  | .pageDown => some (applyN handlers_nav_down 10 s, .none)
  | .scrollToTop => some (handlers_nav_to s 0, .none)
  | .scrollToBottom => some (handlers_nav_to s usizeMax, .none)
  | .select => some (handlers_handle_select s)
  | .cancel => some (handlers_goBackOn s)
  | _ => none

-- ===== Native delete-records bridge =====
-- (src/kafka/admin_ffi.rs and the inline copy in src/kafka/client.rs)

/-- The four native resources a bridge call allocates. -/
inductive Res where
  | queue
  | opts
  | request
  | event
deriving DecidableEq, Repr

/-- One entry of the resource trace: a native allocation or release. -/
inductive ResEvent where
  | alloc (r : Res)
  | free (r : Res)
deriving DecidableEq, Repr

/-- One element of the per-partition result array inside a DeleteRecords
response (`rd_kafka_topic_partition_t`): topic may be a null pointer, and
`err` is whether its error field is non-zero, rendered by `err_name`. -/
structure PartElem where
  topic : Option String
  partition : Int
  err : Bool
  err_name : String
deriving DecidableEq, Repr

/-- Oracle for the outcomes of the native calls a bridge invocation makes,
in the order the code makes them.  A later field is only consulted when the
earlier stages succeeded. -/
structure BridgeWorld where
  queue_null : Bool
  opts_null : Bool
  timeout_err : Option String
  request_null : Bool
  poll_null : Bool
  event_err : Option (Option String)
  result_null : Bool
  offsets_null : Bool
  elems : List PartElem
deriving DecidableEq, Repr

/-- Embeds `check_partition_results` from `admin_ffi.rs`: the outer `Err` is the
null-offsets case, the inner `Err` the first failing partition. -/
def check_partition_results (offsets_null : Bool) (elems : List PartElem) :
    Except String (Except String Unit) :=
  if offsets_null then .error "DeleteRecords returned no offsets"
  else
    match elems.find? (fun e => e.err) with
    | some e =>
        .ok (.error ("DeleteRecords failed for " ++ e.topic.getD "<unknown>" ++
          "[" ++ toString e.partition ++ "]: " ++ e.err_name))
    | none => .ok (.ok ())

/-- Embeds `delete_records_inner` from `admin_ffi.rs`, returning the result of the call
together with the trace of native allocations and releases it performed.
Note the per-partition stage: the source writes
`if let Err(e) = check_partition_results(result)? ...`, so the outer error
(null offsets) propagates through `?` before the cleanup block runs. -/
def delete_records_inner (w : BridgeWorld) : Except String Unit × List ResEvent :=
  if w.queue_null then
    (.error "Failed to create admin result queue", [])
  else
    let tr := [ResEvent.alloc .queue]
    if w.opts_null then
      (.error "Failed to create admin options", tr ++ [.free .queue])
    else
      let tr := tr ++ [ResEvent.alloc .opts]
      match w.timeout_err with
      | some msg =>
          (.error ("Failed to set timeout: " ++ msg),
            tr ++ [.free .opts, .free .queue])
      | none =>
        if w.request_null then
          (.error "Failed to create DeleteRecords request",
            tr ++ [.free .opts, .free .queue])
        else
          let tr := tr ++ [ResEvent.alloc .request, .free .request, .free .opts]
          if w.poll_null then
            (.error "DeleteRecords timed out", tr ++ [.free .queue])
          else
            let tr := tr ++ [ResEvent.alloc .event]
            match w.event_err with
            | some cmsg =>
                (.error (cmsg.getD "DeleteRecords failed"),
                  tr ++ [.free .event, .free .queue])
            | none =>
              if w.result_null then
                (.error "DeleteRecords returned unexpected result",
                  tr ++ [.free .event, .free .queue])
              else
                match check_partition_results w.offsets_null w.elems with
                | .error e => (.error e, tr)
                | .ok (.error e) => (.error e, tr ++ [.free .event, .free .queue])
                | .ok (.ok ()) => (.ok (), tr ++ [.free .event, .free .queue])

/-- The inline delete-records worker from `client.rs` (the body of the
`spawn_blocking` closure in `KafkaClient::delete_records`): identical staging,
but its null-offsets arm destroys the event and queue before returning. -/
def client_delete_records_native (w : BridgeWorld) :
    Except String Unit × List ResEvent :=
  if w.queue_null then
    (.error "Failed to create admin result queue", [])
  else
    let tr := [ResEvent.alloc .queue]
    if w.opts_null then
      (.error "Failed to create admin options", tr ++ [.free .queue])
    else
      let tr := tr ++ [ResEvent.alloc .opts]
      match w.timeout_err with
      | some msg =>
          (.error ("Failed to set timeout: " ++ msg),
            tr ++ [.free .opts, .free .queue])
      | none =>
        if w.request_null then
          (.error "Failed to create DeleteRecords request",
            tr ++ [.free .opts, .free .queue])
        else
          let tr := tr ++ [ResEvent.alloc .request, .free .request, .free .opts]
          if w.poll_null then
            (.error "DeleteRecords timed out", tr ++ [.free .queue])
          else
            let tr := tr ++ [ResEvent.alloc .event]
            match w.event_err with
            | some cmsg =>
                (.error (cmsg.getD "DeleteRecords failed"),
                  tr ++ [.free .event, .free .queue])
            | none =>
              if w.result_null then
                (.error "DeleteRecords returned unexpected result",
                  tr ++ [.free .event, .free .queue])
              else if w.offsets_null then
                (.error "DeleteRecords returned no offsets",
                  tr ++ [.free .event, .free .queue])
              else
                match w.elems.find? (fun e => e.err) with
                | some e =>
                    (.error ("DeleteRecords failed for " ++
                        e.topic.getD "<unknown>" ++ "[" ++
                        toString e.partition ++ "]: " ++ e.err_name),
                      tr ++ [.free .event, .free .queue])
                | none => (.ok (), tr ++ [.free .event, .free .queue])

/-- Stack-discipline check for a resource trace: every release frees the most
recently acquired still-live resource, and at the end of the trace the stack
of live resources is empty.  This is "each resource released exactly once, in
reverse order of acquisition, none outstanding on return". -/
def lifoOk : List ResEvent → List Res → Bool
  | [], stack => stack.isEmpty
  | .alloc r :: rest, stack => lifoOk rest (r :: stack)
  | .free r :: rest, top :: stack => top == r && lifoOk rest stack
  | .free _ :: _, [] => false

/-- The resources still live after a trace (most recent first). -/
def outstanding : List ResEvent → List Res → List Res
  | [], stack => stack
  | .alloc r :: rest, stack => outstanding rest (r :: stack)
  | .free r :: rest, stack => outstanding rest (stack.erase r)

-- ===== Offset clamping (KafkaClient::delete_records, src/kafka/client.rs) =====

/-- The per-partition target-offset computation of
`KafkaClient::delete_records`: the guard rejects a negative requested offset,
then each partition `(id, high_watermark)` is assigned
`offset = before_offset.min(high)`. -/
def delete_records_targets (before_offset : Int) (parts : List (Int × Int)) :
    Except String (List (Int × Int)) :=
  if before_offset < 0 then .error "Offset must be >= 0"
  else .ok (parts.map (fun p => (p.1, min before_offset p.2)))

-- ===== Generic facts used across claims =====

/-- Selected-index safety for one list: within bounds, or pinned at 0 when
the list is empty. -/
def idxOk (i n : Nat) : Prop := i < n ∨ (n = 0 ∧ i = 0)

/-- The selected-index invariant for the three data lists the navigation
actions index through their filtered views. -/
def listsInv (s : AppState) : Prop :=
  idxOk s.topics_state.selected_index s.topics_state.filtered_topics.length
  ∧ idxOk s.messages_state.selected_index s.messages_state.messages.length
  ∧ idxOk s.consumer_groups_state.selected_index
      s.consumer_groups_state.filtered_groups.length

lemma idxOk_zero (n : Nat) : idxOk 0 n := by
  unfold idxOk; omega

lemma idxOk_mono {i n m : Nat} (h : idxOk i n) (hle : n ≤ m) : idxOk i m := by
  unfold idxOk at *; omega

lemma idxOk_sub {i n : Nat} (h : idxOk i n) : idxOk (i - 1) n := by
  unfold idxOk at *; omega

lemma idxOk_min (t n : Nat) : idxOk (min t (n - 1)) n := by
  unfold idxOk; omega

-- ===== Claim C4 =====

/-- Claim C4: fetch results are applied last-write-wins — applying
`TopicsFetched(a)` then `TopicsFetched(b)` leaves the topics sub-state equal
to the wholesale replacement by `b`, identical to applying `TopicsFetched(b)`
alone to the intermediate state (equivalently, to the original state), with
no merging, and the returned command is `None`. -/
theorem c4_last_write_wins (s : AppState) (a b : List TopicInfo) (e₁ e₂ : Env) :
    (update (update s (.topicsFetched a) e₁).1 (.topicsFetched b) e₂).1.topics_state.topics
        = b
    ∧ (update (update s (.topicsFetched a) e₁).1 (.topicsFetched b) e₂).1.topics_state
        = (update s (.topicsFetched b) e₂).1.topics_state
    ∧ (update (update s (.topicsFetched a) e₁).1 (.topicsFetched b) e₂).2
        = .none := by
  refine ⟨rfl, rfl, rfl⟩

-- ===== Claim C9 =====

/-- Claim C9: re-navigation is idempotent — `Navigate(c)` with `c` already
active returns `Command::None` and leaves the state unchanged; when `c`
differs, the previous screen is pushed onto history and the single
associated fetch command is issued. -/
theorem c9_navigate_idempotent (s : AppState) (c : Screen) (env : Env) :
    (s.active_screen = c → update s (.navigate c) env = (s, .none))
    ∧ (s.active_screen ≠ c → update s (.navigate c) env =
        ({ s with
            screen_history := s.screen_history ++ [s.active_screen],
            active_screen := c },
          match c with
          | .topics => .fetchTopicList
          | .consumerGroups => .fetchConsumerGroupList
          | .brokers => .fetchBrokerList
          | .messages n =>
              .fetchMessages n s.messages_state.offset_mode
                s.messages_state.partition_filter 100
          | _ => .none)) := by
  constructor
  · intro h
    simp [update, navigateOn, h]
  · intro h
    simp [update, navigateOn, h]

/-- Witness for C9 at concrete inputs: navigating to the already-active
Welcome screen is a no-op, and navigating from Welcome to Topics pushes
history and issues exactly the topic-list fetch. -/
theorem c9_witness :
    update initialState (.navigate .welcome) ⟨0, 0⟩ = (initialState, .none)
    ∧ update initialState (.navigate .topics) ⟨0, 0⟩ =
        ({ initialState with
            screen_history := [.welcome], active_screen := .topics },
          .fetchTopicList) := by
  refine ⟨(c9_navigate_idempotent initialState .welcome ⟨0, 0⟩).1 rfl, ?_⟩
  exact (c9_navigate_idempotent initialState .topics ⟨0, 0⟩).2 (by decide)

-- ===== Claim C7 =====

/-- Claim C7 counterexample: the claim says a fetch failure appends a toast
*and a log entry*; starting from the initial state (whose log buffer is
empty), `TopicsFetchFailed` leaves the log buffer untouched — no log entry is
ever appended by this reducer. -/
theorem c7_counterexample :
    (update initialState (.topicsFetchFailed "boom") ⟨0, 0⟩).1.logs_state
        = initialState.logs_state
    ∧ (update initialState (.topicsFetchFailed "boom") ⟨0, 0⟩).1.logs_state.entries
        = []
    ∧ (update initialState (.topicsFetchFailed "boom") ⟨0, 0⟩).1.ui_state.toast_messages
        ≠ [] := by
  refine ⟨rfl, rfl, by decide⟩

/-- Claim C7 as amended: a fetch-failure event clears the loading flag,
appends exactly one error toast (no log entry), leaves every other part of
the state unchanged — in particular the topic list and its selected index —
and returns `Command::None`. -/
theorem c7_fetch_failure_frame (s : AppState) (err : String) (env : Env) :
    update s (.topicsFetchFailed err) env =
      ({ s with
          topics_state := { s.topics_state with loading := false },
          ui_state := { s.ui_state with
            toast_messages := s.ui_state.toast_messages ++
              [{ id := env.fresh_id,
                 message := "Failed to fetch topics: " ++ err,
                 level := .error, created_at := env.now }] } },
        .none) := by
  rfl

-- ===== Claim C2 =====

/-- Claim C2 counterexample: the reducer reads the ambient clock and UUID
source when it appends a toast, so handling `ConnectionSuccess` from the same
state at two different instants yields different states (the toast field
`created_at` differs) — the reducer is not independent of the clock. -/
theorem c2_counterexample :
    (update initialState .connectionSuccess ⟨0, 0⟩).1
      ≠ (update initialState .connectionSuccess ⟨1000, 0⟩).1 := by
  decide

/-- The toast fields determined by the reducer alone (message and level), as
opposed to those drawn from the clock and UUID source. -/
def toastView (t : ToastMessage) : String × Level := (t.message, t.level)

/-- A state with its toast queue erased, for comparing two reducer runs up to
toast metadata. -/
def eraseToasts (s : AppState) : AppState :=
  { s with ui_state := { s.ui_state with toast_messages := [] } }

/-- Claim C2 as amended: the reducer is a pure function of the state, the
action, the clock reading and the generated identifier; for the
toast-appending actions the claim names (`ConnectionSuccess`,
`TopicsFetchFailed`), two runs from the same `(s, e)` at different instants
agree on the entire resulting state apart from the `id` and
`created_at` (message and level included), and return equal commands. -/
theorem c2_determinism_modulo_toast_meta (s : AppState) (err : String)
    (e₁ e₂ : Env) :
    (eraseToasts (update s .connectionSuccess e₁).1
        = eraseToasts (update s .connectionSuccess e₂).1
      ∧ (update s .connectionSuccess e₁).1.ui_state.toast_messages.map toastView
        = (update s .connectionSuccess e₂).1.ui_state.toast_messages.map toastView
      ∧ (update s .connectionSuccess e₁).2 = (update s .connectionSuccess e₂).2)
    ∧ (eraseToasts (update s (.topicsFetchFailed err) e₁).1
        = eraseToasts (update s (.topicsFetchFailed err) e₂).1
      ∧ (update s (.topicsFetchFailed err) e₁).1.ui_state.toast_messages.map toastView
        = (update s (.topicsFetchFailed err) e₂).1.ui_state.toast_messages.map toastView
      ∧ (update s (.topicsFetchFailed err) e₁).2
        = (update s (.topicsFetchFailed err) e₂).2) := by
  refine ⟨⟨rfl, ?_, rfl⟩, ⟨rfl, ?_, rfl⟩⟩ <;>
    simp [update, toast, toastView]

-- ===== Claim C3 =====

/-- Claim C3: the delete-records operation clamps each per-partition target to
`min(requested_offset, high_watermark)`; requesting `H + 1000` over a
high watermark `H` yields exactly `H`, the `i64::MAX` "purge all" sentinel
(which the purge form emits when `purge_all` is set) also resolves to `H`,
and in general every partition is submitted with the clamped target. -/
theorem c3_offset_clamp (p H before : Int) (parts : List (Int × Int))
    (s : AppState) (f : PurgeTopicFormState) (env : Env) :
    (0 ≤ H → delete_records_targets (H + 1000) [(p, H)] = .ok [(p, H)])
    ∧ (0 ≤ H → H ≤ i64Max → delete_records_targets i64Max [(p, H)] = .ok [(p, H)])
    ∧ (0 ≤ before → delete_records_targets before parts =
        .ok (parts.map (fun q => (q.1, min before q.2))))
    ∧ (s.ui_state.active_modal = some (.purgeTopicForm f) → f.purge_all = true →
        (update s .modalConfirm env).2 = .purgeKafkaTopic f.topic i64Max) := by
  refine ⟨?_, ?_, ?_, ?_⟩
  · intro hH
    simp only [delete_records_targets, if_neg (by omega : ¬ H + 1000 < 0)]
    simp [min_eq_right (by omega : H ≤ H + 1000)]
  · intro hH hMax
    have : ¬ i64Max < 0 := by unfold i64Max; omega
    simp only [delete_records_targets, if_neg this]
    simp [min_eq_right hMax]
  · intro hb
    simp [delete_records_targets, not_lt.mpr hb]
  · intro hmodal hall
    simp [update, handle_modal_confirm, hmodal, hall]

/-- Witness for C3 at concrete inputs: a partition with high watermark 5. -/
theorem c3_witness :
    delete_records_targets 1005 [(0, 5)] = .ok [(0, 5)]
    ∧ delete_records_targets i64Max [(0, 5)] = .ok [(0, 5)]
    ∧ delete_records_targets 3 [(0, 7)] = .ok [(0, 3)]
    ∧ (update
        { initialState with ui_state := { initialState.ui_state with
          active_modal := some (.purgeTopicForm ⟨"t", "", true⟩) } }
        .modalConfirm ⟨0, 0⟩).2 = .purgeKafkaTopic "t" i64Max := by
  have h := c3_offset_clamp 0 5 3 [(0, 7)]
    { initialState with ui_state := { initialState.ui_state with
      active_modal := some (.purgeTopicForm ⟨"t", "", true⟩) } }
    ⟨"t", "", true⟩ ⟨0, 0⟩
  exact ⟨h.1 (by decide), h.2.1 (by decide) (by decide),
    h.2.2.1 (by decide), h.2.2.2 rfl rfl⟩

-- ===== Claim C6 =====

/-- Claim C6: `GoBack` pops exactly one of, in priority order, an open modal,
the help overlay, or the top of the screen-history stack; it is a no-op when
all three are empty; with history `[A, B, C]` three `GoBack`s restore the
screens in LIFO order and a fourth leaves the state unchanged; every `GoBack`
returns `Command::None`. -/
theorem c6_go_back (s : AppState) (env : Env) (m : ModalType)
    (prev : Screen) (h : List Screen) (A B C : Screen) :
    ((update s .goBack env).2 = .none)
    ∧ (s.ui_state.active_modal = some m →
        update s .goBack env =
          ({ s with ui_state := { s.ui_state with active_modal := none } },
            .none))
    ∧ (s.ui_state.active_modal = none → s.ui_state.show_help = true →
        update s .goBack env =
          ({ s with ui_state := { s.ui_state with show_help := false } },
            .none))
    ∧ (s.ui_state.active_modal = none → s.ui_state.show_help = false →
        s.screen_history = h ++ [prev] →
        update s .goBack env =
          ({ s with active_screen := prev, screen_history := h }, .none))
    ∧ (s.ui_state.active_modal = none → s.ui_state.show_help = false →
        s.screen_history = [] →
        update s .goBack env = (s, .none))
    ∧ (s.ui_state.active_modal = none → s.ui_state.show_help = false →
        s.screen_history = [A, B, C] →
        ((update s .goBack env).1.active_screen = C
          ∧ (update s .goBack env).1.screen_history = [A, B]
          ∧ (update (update s .goBack env).1 .goBack env).1.active_screen = B
          ∧ (update (update s .goBack env).1 .goBack env).1.screen_history = [A]
          ∧ (update (update (update s .goBack env).1 .goBack env).1 .goBack
              env).1.active_screen = A
          ∧ (update (update (update s .goBack env).1 .goBack env).1 .goBack
              env).1.screen_history = []
          ∧ update
              (update (update (update s .goBack env).1 .goBack env).1 .goBack
                env).1 .goBack env =
              ((update (update (update s .goBack env).1 .goBack env).1 .goBack
                env).1, .none))) := by
  have hpop : ∀ (s : AppState) (h : List Screen) (prev : Screen),
      s.ui_state.active_modal = none → s.ui_state.show_help = false →
      s.screen_history = h ++ [prev] →
      update s .goBack env =
        ({ s with active_screen := prev, screen_history := h }, .none) := by
    intro s h prev hm hh hhist
    simp [update, goBackOn, hm, hh, hhist, List.getLast?_concat,
      List.dropLast_concat]
  refine ⟨?_, ?_, ?_, ?_, ?_, ?_⟩
  · simp only [update, goBackOn]
    rcases hm : s.ui_state.active_modal with _ | m'
    · simp only
      split
      · rfl
      · rcases hl : s.screen_history.getLast? with _ | p <;> simp
    · simp
  · intro hm
    simp [update, goBackOn, hm]
  · intro hm hh
    simp [update, goBackOn, hm, hh]
  · intro hm hh hhist
    exact hpop s h prev hm hh hhist
  · intro hm hh hhist
    simp [update, goBackOn, hm, hh, hhist]
  · intro hm hh hhist
    have e1 := hpop s [A, B] C hm hh hhist
    have e2 := hpop ({ s with active_screen := C, screen_history := [A, B] })
      [A] B hm hh rfl
    have e3 := hpop ({ s with active_screen := B, screen_history := [A] })
      [] A hm hh rfl
    rw [e1]
    dsimp only
    rw [e2]
    dsimp only
    rw [e3]
    dsimp only
    refine ⟨rfl, rfl, rfl, rfl, rfl, rfl, ?_⟩
    simp [update, goBackOn, hm, hh]

/-- Witness for C6 at concrete inputs: a state with empty modal and help and
history `[Topics, Brokers, Logs]`, walked back four times. -/
theorem c6_witness :
    ((update { initialState with screen_history :=
        [.topics, .brokers, .logs] } .goBack ⟨0, 0⟩).1.active_screen = .logs)
    ∧ ((update { initialState with screen_history :=
        [.topics, .brokers, .logs] } .goBack ⟨0, 0⟩).1.screen_history
          = [.topics, .brokers]) := by
  have h := (c6_go_back
    { initialState with screen_history := [.topics, .brokers, .logs] }
    ⟨0, 0⟩ (.confirm "" "" .disconnectCluster) .welcome [] .topics .brokers
    .logs).2.2.2.2.2 rfl rfl rfl
  exact ⟨h.1, h.2.1⟩

-- ===== Claim C8 =====

lemma mem_expire_toasts (now : Int) (l : List ToastMessage)
    (tm : ToastMessage) :
    tm ∈ expire_toasts now l ↔ tm ∈ l ∧ now - tm.created_at < 5000 := by
  simp [expire_toasts, List.mem_filter]

/-- Claim C8: toast expiry is driven by the creation timestamp and a fixed
5-second TTL.  A `Tick` at time `now` keeps exactly the toasts of age less
than 5 seconds (so a toast is removed exactly when its age reaches the TTL,
never earlier); a toast created at `T` survives a `Tick` at `T + 4s`, is gone
from any `Tick` at or after `T + 5s` (in particular `T + 6s`), and survives
any number of intervening `Tick`s at times of age below the TTL; `Tick`
touches nothing but the toast list and returns `Command::None`. -/
theorem c8_toast_ttl (s : AppState) (env : Env) (tm : ToastMessage)
    (ts : List Int) :
    (update s .tick env =
      ({ s with ui_state := { s.ui_state with
          toast_messages := expire_toasts env.now s.ui_state.toast_messages } },
        .none))
    ∧ (tm ∈ (update s .tick env).1.ui_state.toast_messages ↔
        tm ∈ s.ui_state.toast_messages ∧ env.now - tm.created_at < 5000)
    ∧ (tm ∈ s.ui_state.toast_messages → env.now = tm.created_at + 4000 →
        tm ∈ (update s .tick env).1.ui_state.toast_messages)
    ∧ (tm.created_at + 5000 ≤ env.now →
        tm ∉ (update s .tick env).1.ui_state.toast_messages)
    ∧ (tm ∈ s.ui_state.toast_messages →
        (∀ t ∈ ts, t - tm.created_at < 5000) →
        tm ∈ (List.foldl (fun st t => (update st .tick ⟨t, 0⟩).1) s
            ts).ui_state.toast_messages) := by
  refine ⟨rfl, mem_expire_toasts env.now s.ui_state.toast_messages tm, ?_, ?_, ?_⟩
  · intro hmem hnow
    exact (mem_expire_toasts env.now s.ui_state.toast_messages tm).2
      ⟨hmem, by omega⟩
  · intro hage hmem
    have := (mem_expire_toasts env.now s.ui_state.toast_messages tm).1 hmem
    omega
  · intro hmem hts
    induction ts generalizing s with
    | nil => exact hmem
    | cons t rest ih =>
        simp only [List.foldl_cons]
        exact ih _
          ((mem_expire_toasts t s.ui_state.toast_messages tm).2
            ⟨hmem, by exact hts t (by simp)⟩)
          (fun u hu => hts u (by simp [hu]))

/-- Witness for C8 at concrete inputs: a toast created at time 0 survives the
tick at 4000 ms and is gone after a tick at 6000 ms. -/
theorem c8_witness :
    (⟨7, "hi", Level.info, 0⟩ : ToastMessage) ∈
      (update
        { initialState with ui_state := { initialState.ui_state with
          toast_messages := [⟨7, "hi", Level.info, 0⟩] } }
        .tick ⟨4000, 0⟩).1.ui_state.toast_messages
    ∧ (⟨7, "hi", Level.info, 0⟩ : ToastMessage) ∉
      (update
        { initialState with ui_state := { initialState.ui_state with
          toast_messages := [⟨7, "hi", Level.info, 0⟩] } }
        .tick ⟨6000, 0⟩).1.ui_state.toast_messages := by
  constructor
  · exact (c8_toast_ttl
      { initialState with ui_state := { initialState.ui_state with
        toast_messages := [⟨7, "hi", Level.info, 0⟩] } }
      ⟨4000, 0⟩ ⟨7, "hi", Level.info, 0⟩ []).2.2.1 (by decide) rfl
  · exact (c8_toast_ttl
      { initialState with ui_state := { initialState.ui_state with
        toast_messages := [⟨7, "hi", Level.info, 0⟩] } }
      ⟨6000, 0⟩ ⟨7, "hi", Level.info, 0⟩ []).2.2.2.1 (by decide)

-- ===== Claim C1 =====

/-- Claim C1: resource release in the delete-records bridge.  The
`client.rs` copy of the bridge releases every allocated native resource
exactly once, in reverse order of acquisition, on every exit path; the
`admin_ffi.rs` copy does so on every path except the malformed (null
offsets) response, where the `?` on `check_partition_results` returns the
error before the cleanup block runs and leaves the completion event and the
result queue un-destroyed — contradicting the documentation of the function
("handles cleanup of all allocated rdkafka resources on all error paths"). -/
theorem c1_release_discipline :
    (∀ w : BridgeWorld, lifoOk (client_delete_records_native w).2 [] = true)
    ∧ (∀ w : BridgeWorld,
        lifoOk (delete_records_inner { w with offsets_null := false }).2 []
          = true)
    ∧ ((delete_records_inner
          ⟨false, false, none, false, false, none, false, true, []⟩).1
        = .error "DeleteRecords returned no offsets")
    ∧ (outstanding (delete_records_inner
          ⟨false, false, none, false, false, none, false, true, []⟩).2 []
        = [.event, .queue]) := by
  refine ⟨?_, ?_, rfl, rfl⟩
  · rintro ⟨q, o, te, rn, pn, ee, resn, offn, elems⟩
    cases q <;> cases o <;> cases te <;> cases rn <;> cases pn <;> cases ee <;>
      cases resn <;> cases offn <;>
      simp only [client_delete_records_native] <;>
      first
        | rfl
        | (cases elems.find? (fun e => e.err) <;> rfl)
  · rintro ⟨q, o, te, rn, pn, ee, resn, offn, elems⟩
    cases q <;> cases o <;> cases te <;> cases rn <;> cases pn <;> cases ee <;>
      cases resn <;>
      simp only [delete_records_inner, check_partition_results] <;>
      first
        | rfl
        | (cases elems.find? (fun e => e.err) <;> rfl)

-- ===== Claim C10 =====

lemma handlers_navigateOn_eq (s : AppState) (c : Screen) :
    handlers_navigateOn s c = navigateOn s c := rfl

lemma handlers_goBackOn_eq (s : AppState) :
    handlers_goBackOn s = goBackOn s := rfl

lemma handlers_handle_select_eq (s : AppState) :
    handlers_handle_select s = handle_select s := by
  unfold handlers_handle_select handle_select
  split
  · rfl
  · cases hscr : s.active_screen <;>
      simp only [viewTopicMessagesOn, viewConsumerGroupDetailsOn,
        toggleMessageDetailOn, connectOn] <;>
      rw [hscr]

lemma nav_up_fields (s : AppState) :
    (nav_up s).ui_state.sidebar_focused = s.ui_state.sidebar_focused
    ∧ (nav_up s).active_screen = s.active_screen := by
  unfold nav_up
  split
  · exact ⟨rfl, rfl⟩
  · split <;> exact ⟨rfl, rfl⟩

lemma nav_down_fields (s : AppState) :
    (nav_down s).ui_state.sidebar_focused = s.ui_state.sidebar_focused
    ∧ (nav_down s).active_screen = s.active_screen := by
  unfold nav_down
  split
  · exact ⟨rfl, rfl⟩
  · split <;> first
      | exact ⟨rfl, rfl⟩
      | (split <;> exact ⟨rfl, rfl⟩)

lemma nav_up_agree (s : AppState)
    (hsf : s.ui_state.sidebar_focused = false)
    (hscr : s.active_screen ≠ .logs) :
    handlers_nav_up s = nav_up s := by
  unfold handlers_nav_up nav_up
  rw [hsf]
  simp only [Bool.false_eq_true, if_false]
  cases h : s.active_screen
  case logs => exact absurd h hscr
  all_goals rfl

lemma nav_down_agree (s : AppState)
    (hsf : s.ui_state.sidebar_focused = false)
    (hscr : s.active_screen ≠ .logs) :
    handlers_nav_down s = nav_down s := by
  unfold handlers_nav_down nav_down
  rw [hsf]
  simp only [Bool.false_eq_true, if_false]
  cases h : s.active_screen
  case logs => exact absurd h hscr
  all_goals try rfl
  all_goals
    simp only [TopicsState.nav_down, MessagesState.nav_down,
      ConsumerGroupsState.nav_down, ConnectionState.nav_down]
  all_goals
    split
  all_goals try rfl
  all_goals rw [← h]

lemma nav_to_agree (s : AppState) (target : Nat)
    (hscr : s.active_screen ≠ .logs) :
    handlers_nav_to s target = nav_to s target := by
  unfold handlers_nav_to nav_to
  cases h : s.active_screen
  case logs => exact absurd h hscr
  all_goals rfl

lemma applyN_nav_up_agree (n : Nat) (s : AppState)
    (hsf : s.ui_state.sidebar_focused = false)
    (hscr : s.active_screen ≠ .logs) :
    applyN handlers_nav_up n s = applyN nav_up n s := by
  induction n generalizing s with
  | zero => rfl
  | succ k ih =>
      simp only [applyN]
      rw [nav_up_agree s hsf hscr]
      exact ih _ ((nav_up_fields s).1.trans hsf)
        (by rw [(nav_up_fields s).2]; exact hscr)

lemma applyN_nav_down_agree (n : Nat) (s : AppState)
    (hsf : s.ui_state.sidebar_focused = false)
    (hscr : s.active_screen ≠ .logs) :
    applyN handlers_nav_down n s = applyN nav_down n s := by
  induction n generalizing s with
  | zero => rfl
  | succ k ih =>
      simp only [applyN]
      rw [nav_down_agree s hsf hscr]
      exact ih _ ((nav_down_fields s).1.trans hsf)
        (by rw [(nav_down_fields s).2]; exact hscr)

/-- Claim C10 counterexample: on the Logs screen the two implementations
disagree — with two log entries and selection 0, `MoveDown` moves the
selection to 1 in the modular navigation handler, while the monolithic
reducer leaves it at 0 (its `nav_down` has no `Screen::Logs` arm). -/
theorem c10_counterexample :
    ((handlers_handle
        { initialState with
          active_screen := Screen.logs,
          logs_state := { entries := [⟨Level.info, "a", 0⟩, ⟨Level.info, "b", 0⟩],
                          selected_index := 0, filter_level := none } }
        .moveDown).map (fun r => r.1.logs_state.selected_index) = some 1)
    ∧ ((update
        { initialState with
          active_screen := Screen.logs,
          logs_state := { entries := [⟨Level.info, "a", 0⟩, ⟨Level.info, "b", 0⟩],
                          selected_index := 0, filter_level := none } }
        .moveDown ⟨0, 0⟩).1.logs_state.selected_index = 0) := by
  refine ⟨by decide, by decide⟩

/-- Claim C10 as amended: the monolithic reducer and the modular navigation
handler compute the same `(State, Command)` for `Navigate`, `GoBack` and
`Select` on every state, and for the list-navigation actions (`MoveUp`,
`MoveDown`, `PageUp`, `PageDown`, `ScrollToTop`, `ScrollToBottom`) on every
state whose sidebar is not focused and whose active screen is not the Logs
screen; on the Logs screen the modular handler moves the log selection while
the monolithic reducer leaves it unchanged. -/
theorem c10_handlers_agree (s : AppState) (c : Screen) (env : Env) :
    (handlers_handle s (.navigate c) = some (update s (.navigate c) env))
    ∧ (handlers_handle s .goBack = some (update s .goBack env))
    ∧ (handlers_handle s .select = some (update s .select env))
    ∧ (s.ui_state.sidebar_focused = false → s.active_screen ≠ .logs →
        (handlers_handle s .moveUp = some (update s .moveUp env)
        ∧ handlers_handle s .moveDown = some (update s .moveDown env)
        ∧ handlers_handle s .pageUp = some (update s .pageUp env)
        ∧ handlers_handle s .pageDown = some (update s .pageDown env)
        ∧ handlers_handle s .scrollToTop = some (update s .scrollToTop env)
        ∧ handlers_handle s .scrollToBottom
            = some (update s .scrollToBottom env))) := by
  refine ⟨rfl, rfl, ?_, ?_⟩
  · show some (handlers_handle_select s) = some (handle_select s)
    rw [handlers_handle_select_eq]
  · intro hsf hscr
    refine ⟨?_, ?_, ?_, ?_, ?_, ?_⟩
    · show some (handlers_nav_up s, Command.none) = some (nav_up s, .none)
      rw [nav_up_agree s hsf hscr]
    · show some (handlers_nav_down s, Command.none) = some (nav_down s, .none)
      rw [nav_down_agree s hsf hscr]
    · show some (applyN handlers_nav_up 10 s, Command.none)
        = some (applyN nav_up 10 s, .none)
      rw [applyN_nav_up_agree 10 s hsf hscr]
    · show some (applyN handlers_nav_down 10 s, Command.none)
        = some (applyN nav_down 10 s, .none)
      rw [applyN_nav_down_agree 10 s hsf hscr]
    · show some (handlers_nav_to s 0, Command.none) = some (nav_to s 0, .none)
      rw [nav_to_agree s 0 hscr]
    · show some (handlers_nav_to s usizeMax, Command.none)
        = some (nav_to s usizeMax, .none)
      rw [nav_to_agree s usizeMax hscr]

/-- Witness for C10 at a concrete input: the two implementations agree on
`MoveDown` from the initial state (Welcome screen, sidebar unfocused). -/
theorem c10_witness :
    handlers_handle initialState .moveDown
      = some (update initialState .moveDown ⟨0, 0⟩) :=
  ((c10_handlers_agree initialState .topics ⟨0, 0⟩).2.2.2 rfl
    (by decide)).2.1

-- ===== Claim C5 =====

lemma filtered_topics_length_mergeSort (ts : TopicsState)
    (le : TopicInfo → TopicInfo → Bool) :
    (TopicsState.filtered_topics
        { ts with topics := ts.topics.mergeSort le }).length
      = ts.filtered_topics.length := by
  unfold TopicsState.filtered_topics
  dsimp only
  split
  · exact (List.mergeSort_perm ts.topics le).length_eq
  · exact ((List.mergeSort_perm ts.topics le).filter _).length_eq

lemma filtered_topics_length_append (ts : TopicsState) (t : TopicInfo) :
    ts.filtered_topics.length ≤
      (TopicsState.filtered_topics
        { ts with topics := ts.topics ++ [t] }).length := by
  unfold TopicsState.filtered_topics
  dsimp only
  split
  · simp
  · simp only [List.filter_append, List.length_append]
    omega

lemma listsInv_navigateOn {s : AppState} (c : Screen) (h : listsInv s) :
    listsInv (navigateOn s c).1 := by
  unfold navigateOn
  split
  · exact h
  · exact h

lemma listsInv_goBackOn {s : AppState} (h : listsInv s) :
    listsInv (goBackOn s).1 := by
  unfold goBackOn
  cases s.ui_state.active_modal
  · dsimp only
    split
    · exact h
    · cases s.screen_history.getLast? <;> exact h
  · exact h

lemma listsInv_nav_up {s : AppState} (h : listsInv s) : listsInv (nav_up s) := by
  obtain ⟨h1, h2, h3⟩ := h
  unfold nav_up
  split
  · exact ⟨h1, h2, h3⟩
  · split
    · exact ⟨idxOk_sub h1, h2, h3⟩
    · exact ⟨h1, idxOk_sub h2, h3⟩
    · exact ⟨h1, h2, idxOk_sub h3⟩
    · exact ⟨h1, h2, h3⟩
    · exact ⟨h1, h2, h3⟩

lemma listsInv_nav_down {s : AppState} (h : listsInv s) :
    listsInv (nav_down s) := by
  obtain ⟨h1, h2, h3⟩ := h
  unfold nav_down
  split
  · exact ⟨h1, h2, h3⟩
  · split
    · split
      · next hc => exact ⟨Or.inl hc, h2, h3⟩
      · exact ⟨h1, h2, h3⟩
    · split
      · next hc => exact ⟨h1, Or.inl hc, h3⟩
      · exact ⟨h1, h2, h3⟩
    · split
      · next hc => exact ⟨h1, h2, Or.inl hc⟩
      · exact ⟨h1, h2, h3⟩
    · split
      · exact ⟨h1, h2, h3⟩
      · exact ⟨h1, h2, h3⟩
    · exact ⟨h1, h2, h3⟩

lemma listsInv_nav_to {s : AppState} (target : Nat) (h : listsInv s) :
    listsInv (nav_to s target) := by
  obtain ⟨h1, h2, h3⟩ := h
  unfold nav_to
  split
  · exact ⟨idxOk_min _ _, h2, h3⟩
  · exact ⟨h1, idxOk_min _ _, h3⟩
  · exact ⟨h1, h2, idxOk_min _ _⟩
  · exact ⟨h1, h2, h3⟩

lemma listsInv_applyN {f : AppState → AppState}
    (hf : ∀ s, listsInv s → listsInv (f s)) (n : Nat) {s : AppState}
    (h : listsInv s) : listsInv (applyN f n s) := by
  induction n generalizing s with
  | zero => exact h
  | succ k ih => exact ih (hf s h)

lemma listsInv_modal_confirm {s : AppState} (env : Env) (h : listsInv s) :
    listsInv (handle_modal_confirm s env).1 := by
  obtain ⟨h1, h2, h3⟩ := h
  unfold handle_modal_confirm
  cases s.ui_state.active_modal with
  | none => exact ⟨h1, h2, h3⟩
  | some modal =>
      cases modal with
      | confirm _ _ action => cases action <;> exact ⟨h1, h2, h3⟩
      | input _ _ value action =>
          cases action with
          | filterTopics => exact ⟨idxOk_zero _, h2, h3⟩
          | filterConsumerGroups => exact ⟨h1, h2, idxOk_zero _⟩
          | produceMessage _ => exact ⟨h1, h2, h3⟩
          | createTopic => exact ⟨h1, h2, h3⟩
      | connectionForm f => exact ⟨h1, h2, h3⟩
      | topicCreateForm f => exact ⟨h1, h2, h3⟩
      | produceForm f => exact ⟨h1, h2, h3⟩
      | addPartitionsForm f =>
          dsimp only
          split <;> exact ⟨h1, h2, h3⟩
      | alterConfigForm f =>
          dsimp only
          split <;> exact ⟨h1, h2, h3⟩
      | purgeTopicForm f => exact ⟨h1, h2, h3⟩

lemma listsInv_handle_select {s : AppState} (h : listsInv s) :
    listsInv (handle_select s).1 := by
  obtain ⟨h1, h2, h3⟩ := h
  unfold handle_select
  split
  · exact listsInv_navigateOn _ ⟨h1, h2, h3⟩
  · split
    · cases s.topics_state.selected_topic
      · exact ⟨h1, h2, h3⟩
      · exact ⟨h1, idxOk_zero _, h3⟩
    · exact ⟨h1, h2, h3⟩
    · cases s.consumer_groups_state.selected_group
      · exact ⟨h1, h2, h3⟩
      · exact ⟨h1, h2, h3⟩
    · cases s.connection.available_profiles[s.connection.selected_index]?
      · exact ⟨h1, h2, h3⟩
      · exact ⟨h1, h2, h3⟩
    · exact ⟨h1, h2, h3⟩

lemma listsInv_update (s : AppState) (a : AppAction) (env : Env)
    (h : listsInv s) : listsInv (update s a env).1 := by
  obtain ⟨h1, h2, h3⟩ := h
  cases a
  case navigate c => exact listsInv_navigateOn c ⟨h1, h2, h3⟩
  case goBack => exact listsInv_goBackOn ⟨h1, h2, h3⟩
  case cancel => exact listsInv_goBackOn ⟨h1, h2, h3⟩
  case selectSidebarItem item => exact listsInv_navigateOn _ ⟨h1, h2, h3⟩
  case requestDeleteConnection =>
      show listsInv (match s.connection.available_profiles[s.connection.selected_index]? with
        | some profile => showModalOn s (.confirm "Delete Connection"
            ("Delete \x27" ++ profile.name ++ "\x27?")
            (.deleteConnection profile.id))
        | none => (s, .none)).1
      cases s.connection.available_profiles[s.connection.selected_index]? <;>
        exact ⟨h1, h2, h3⟩
  case topicsFetched topics => exact ⟨idxOk_zero _, h2, h3⟩
  case selectTopic i =>
      simp only [update]
      split
      · next hc => exact ⟨Or.inl hc, h2, h3⟩
      · exact ⟨h1, h2, h3⟩
  case filterTopics f => exact ⟨idxOk_zero _, h2, h3⟩
  case clearTopicFilter => exact ⟨idxOk_zero _, h2, h3⟩
  case sortTopics field =>
      show listsInv (sort_topics _, Command.none).1
      unfold sort_topics
      split
      · exact ⟨by rw [filtered_topics_length_mergeSort]; exact h1, h2, h3⟩
      · exact ⟨by rw [filtered_topics_length_mergeSort]; exact h1, h2, h3⟩
  case topicCreated name partitions replication_factor =>
      exact ⟨idxOk_mono h1 (filtered_topics_length_append _ _), h2, h3⟩
  case requestViewTopicDetails =>
      show listsInv (match s.topics_state.selected_topic with
        | some t => viewTopicDetailsOn s t.name
        | none => (s, .none)).1
      cases s.topics_state.selected_topic <;> exact ⟨h1, h2, h3⟩
  case viewTopicMessages name => exact ⟨h1, idxOk_zero _, h3⟩
  case messagesFetched msgs => exact ⟨h1, idxOk_zero _, h3⟩
  case messageReceived msg =>
      refine ⟨h1, idxOk_mono h2 ?_, h3⟩
      show s.messages_state.messages.length ≤
        (s.messages_state.messages ++ [msg]).length
      simp
  case selectMessage i =>
      simp only [update]
      split
      · next hc => exact ⟨h1, Or.inl hc, h3⟩
      · exact ⟨h1, h2, h3⟩
  case clearMessages => exact ⟨h1, idxOk_zero _, h3⟩
  case consumerGroupsFetched groups => exact ⟨h1, h2, idxOk_zero _⟩
  case selectConsumerGroup i =>
      simp only [update]
      split
      · next hc => exact ⟨h1, h2, Or.inl hc⟩
      · exact ⟨h1, h2, h3⟩
  case filterConsumerGroups f => exact ⟨h1, h2, idxOk_zero _⟩
  case clearConsumerGroupFilter => exact ⟨h1, h2, idxOk_zero _⟩
  case disconnect => exact ⟨idxOk_zero _, idxOk_zero _, idxOk_zero _⟩
  case modalConfirm => exact listsInv_modal_confirm env ⟨h1, h2, h3⟩
  case select => exact listsInv_handle_select ⟨h1, h2, h3⟩
  case moveUp => exact listsInv_nav_up ⟨h1, h2, h3⟩
  case moveDown => exact listsInv_nav_down ⟨h1, h2, h3⟩
  case pageUp =>
      exact listsInv_applyN (fun _ hh => listsInv_nav_up hh) 10 ⟨h1, h2, h3⟩
  case pageDown =>
      exact listsInv_applyN (fun _ hh => listsInv_nav_down hh) 10 ⟨h1, h2, h3⟩
  case scrollToTop => exact listsInv_nav_to 0 ⟨h1, h2, h3⟩
  case scrollToBottom => exact listsInv_nav_to usizeMax ⟨h1, h2, h3⟩
  case moveLeft =>
      simp only [update]
      split <;> exact ⟨h1, h2, h3⟩
  case moveRight =>
      simp only [update]
      split <;> exact ⟨h1, h2, h3⟩
  case updateModalInput v =>
      show listsInv ((match s.ui_state.active_modal with
        | some (.input title placeholder _ action) =>
            { s with ui_state := { s.ui_state with
              active_modal := some (.input title placeholder v action) } }
        | _ => s), Command.none).1
      split <;> exact ⟨h1, h2, h3⟩
  case updateConnectionForm f =>
      show listsInv ((match s.ui_state.active_modal with
        | some (.connectionForm _) =>
            { s with ui_state := { s.ui_state with
              active_modal := some (.connectionForm f) } }
        | _ => s), Command.none).1
      split <;> exact ⟨h1, h2, h3⟩
  case updateTopicCreateForm f =>
      show listsInv ((match s.ui_state.active_modal with
        | some (.topicCreateForm _) =>
            { s with ui_state := { s.ui_state with
              active_modal := some (.topicCreateForm f) } }
        | _ => s), Command.none).1
      split <;> exact ⟨h1, h2, h3⟩
  case updateProduceForm f =>
      show listsInv ((match s.ui_state.active_modal with
        | some (.produceForm _) =>
            { s with ui_state := { s.ui_state with
              active_modal := some (.produceForm f) } }
        | _ => s), Command.none).1
      split <;> exact ⟨h1, h2, h3⟩
  case updateAddPartitionsForm f =>
      show listsInv ((match s.ui_state.active_modal with
        | some (.addPartitionsForm _) =>
            { s with ui_state := { s.ui_state with
              active_modal := some (.addPartitionsForm f) } }
        | _ => s), Command.none).1
      split <;> exact ⟨h1, h2, h3⟩
  case updateAlterConfigForm f =>
      show listsInv ((match s.ui_state.active_modal with
        | some (.alterConfigForm _) =>
            { s with ui_state := { s.ui_state with
              active_modal := some (.alterConfigForm f) } }
        | _ => s), Command.none).1
      split <;> exact ⟨h1, h2, h3⟩
  case updatePurgeTopicForm f =>
      show listsInv ((match s.ui_state.active_modal with
        | some (.purgeTopicForm _) =>
            { s with ui_state := { s.ui_state with
              active_modal := some (.purgeTopicForm f) } }
        | _ => s), Command.none).1
      split <;> exact ⟨h1, h2, h3⟩
  all_goals exact ⟨h1, h2, h3⟩

instance (i n : Nat) : Decidable (idxOk i n) := by
  unfold idxOk; infer_instance

instance (s : AppState) : Decidable (listsInv s) := by
  unfold listsInv; infer_instance

/-- Claim C5 counterexample: the universal selected-index invariant fails for
the connection-profile list.  From the initial state, loading two saved
profiles, moving the Welcome-screen selection down, and then applying a
second `ConnectionsLoaded` completion that carries only one profile leaves
`connection.selected_index = 1` with only one profile — the index equals the
collection length instead of being below it (or reset to 0):
`ConnectionsLoaded` replaces the list without clamping the index. -/
theorem c5_counterexample :
    (let e : Env := ⟨0, 0⟩
     let p1 : ConnectionProfile := ⟨1, "a", "b1", none, .none, 0, none⟩
     let p2 : ConnectionProfile := ⟨2, "b", "b2", none, .none, 0, none⟩
     let s3 := (update (update (update initialState
       (.connectionsLoaded [p1, p2]) e).1 .moveDown e).1
       (.connectionsLoaded [p1]) e).1
     s3.connection.selected_index = 1
     ∧ s3.connection.available_profiles.length = 1
     ∧ ¬ idxOk s3.connection.selected_index
         s3.connection.available_profiles.length) := by
  decide

/-- Claim C5 as amended: the selected-index invariant restricted to the
topics, messages and consumer-group lists (index below the filtered length,
or pinned at 0 when empty) is preserved by every reducer step; every filter
change resets the corresponding selected index to 0; and list navigation on
an empty filtered topics list is a no-op.  The connection-profile list is
excluded: `ConnectionsLoaded` replaces the profile list without clamping the
selected index, so the invariant can be broken there. -/
theorem c5_selected_index_safety (s : AppState) (a : AppAction) (env : Env)
    (f : String) :
    (listsInv s → listsInv (update s a env).1)
    ∧ ((update s (.filterTopics f) env).1.topics_state.selected_index = 0)
    ∧ ((update s .clearTopicFilter env).1.topics_state.selected_index = 0)
    ∧ ((update s (.filterConsumerGroups f) env).1.consumer_groups_state.selected_index = 0)
    ∧ ((update s .clearConsumerGroupFilter env).1.consumer_groups_state.selected_index = 0)
    ∧ (s.active_screen = .topics → s.ui_state.sidebar_focused = false →
        s.topics_state.filtered_topics.length = 0 → listsInv s →
        (update s .moveDown env).1 = s ∧ (update s .moveUp env).1 = s) := by
  refine ⟨listsInv_update s a env, rfl, rfl, rfl, rfl, ?_⟩
  intro hscr hsf hlen hinv
  have hsel : s.topics_state.selected_index = 0 := by
    rcases hinv.1 with hlt | ⟨_, h0⟩
    · omega
    · exact h0
  obtain ⟨scr, hist, conn, ts, ms, cgs, bs, ls, ui, run, lerr⟩ := s
  obtain ⟨tts, tsel, tf, tl, tsb, tsa, tcd, tdt⟩ := ts
  obtain ⟨sh, am, tms, sf, ssi⟩ := ui
  simp only at hscr hsf hlen hsel
  subst hscr hsf hsel
  constructor
  · simp only [update]
    unfold nav_down
    dsimp only at hlen ⊢
    rw [hlen]
    rfl
  · rfl

/-- Witness for C5 at a concrete input: the initial state satisfies the
invariant and a `MoveDown` step preserves it; the empty-list no-op clauses
hold at a state sitting on an empty Topics screen. -/
theorem c5_witness :
    listsInv (update initialState .moveDown ⟨0, 0⟩).1
    ∧ (update { initialState with active_screen := Screen.topics } .moveDown
        ⟨0, 0⟩).1 = { initialState with active_screen := Screen.topics } := by
  constructor
  · exact (c5_selected_index_safety initialState .moveDown ⟨0, 0⟩ "").1
      (by decide)
  · exact ((c5_selected_index_safety
      { initialState with active_screen := Screen.topics } .moveDown ⟨0, 0⟩
      "").2.2.2.2.2 rfl rfl (by decide) (by decide)).1
